import Mathlib

/-!
Verification development for the edx-gomatic configuration-generation layer.

The Python source under `edxpipelines/patterns/apros.py` and
`edxpipelines/patterns/stages.py` builds an in-memory GoCD configuration
tree (pipeline groups, pipelines, stages, jobs, materials, environment
variables) through the gomatic builder API.  We embed that tree as plain
inductive data and translate each builder function into a pure function
that threads the tree explicitly.  Python exceptions (`ValueError`,
`KeyError` from `set.pop()` on an empty set, `IndexError` from list
indexing) are represented by an explicit error component in the result;
the group state accumulated before the raise is kept, mirroring the
mutation-before-raise behaviour of the source.

The modules `edxpipelines.constants`, `edxpipelines.materials`,
`edxpipelines.utils`, `edxpipelines.patterns.jobs` and
`edxpipelines.patterns.authz` are not part of the sources; values and
functions taken from them are modelled from the spec and marked as such
in their doc comments.  `set.pop()` returns an arbitrary element of a
Python set; we model a set built by comprehension as the insertion-ordered
deduplicated list of its elements and parametrise the builders by a
`pop` function, assumed only to return a member of a nonempty list.
-/

/-- EDP identifier: immutable (environment, deployment, play) triple, from
`edxpipelines.utils.EDP` (declared outside src; modelled from the spec's
data-model section: a pure value type with structural equality). -/
structure EDP where
  environment : String
  deployment : String
  play : String
deriving DecidableEq, Repr

/-- ArtifactLocation: pointer to the output of an already-defined stage,
from `edxpipelines.utils.ArtifactLocation` (declared outside src; modelled
from the spec: {pipeline, stage, job, file_name, is_dir}, purely
descriptive). -/
structure ArtifactLocation where
  pipeline : String
  stage : String
  job : String
  file_name : String
  is_dir : Bool
deriving DecidableEq, Repr

/-- A GoCD material: either a git repository or an upstream-pipeline
material (gomatic's `GitMaterial` / `PipelineMaterial`). -/
inductive Material where
  | git (url : String) (branch : Option String) (materialName : Option String)
  | pipelineMat (pipelineName : String) (stageName : String) (materialName : String)
deriving DecidableEq, Repr

/-- Whether a material is a pipeline-level (upstream-pipeline) material. -/
def Material.isPipelineMaterial : Material → Bool
  | .git _ _ _ => false
  | .pipelineMat _ _ _ => true

/-- URL of a git material (the `.url` attribute used by `apros.py`). -/
def Material.url : Material → String
  | .git u _ _ => u
  | .pipelineMat p _ _ => p

/-- Material name used for environment-variable templating. -/
def Material.name : Material → String
  | .git _ _ n => n.getD ""
  | .pipelineMat _ _ n => n

/-- A task inside a job: translated from the gomatic task constructors
used in `stages.py` (`ExecTask`, `FetchArtifactTask` with a
`FetchArtifactFile` source) and the requirements-install task builder
(`tasks.generate_requirements_install`, outside src; modelled from the
spec: package/requirements installation for a named external checkout). -/
inductive GoTask where
  | requirementsInstall (project : String)
  | fetchArtifactFile (pipelineName : String) (stageName : String) (jobName : String)
      (src : String) (dest : String)
  | exec (command : List String) (workingDir : Option String) (runif : String)
deriving DecidableEq, Repr

/-- Per-EDP configuration dictionary.  `apros.py` reads only the
`db_migration_pass` key; the rest of the dictionary is carried opaquely,
so we model the dictionary by that single field. -/
structure EnvConfig where
  db_migration_pass : String
deriving DecidableEq, Repr

/-- A call made by `apros.py` into `edxpipelines.patterns.jobs` (module not
under src).  Modelled from the spec: each jobs.* builder wires one job into
the given stage; we record the call with the arguments constructed by
`apros.py` (the artifact locations, EDP, config and templating inputs). -/
inductive JobCall where
  | buildAmi (edps : List EDP) (appUrl : String) (secureMaterial : Material)
      (internalMaterial : Material) (playbookPath : String) (cfg : EnvConfig)
      (versionTags : List (String × String × String)) (overrides : List (String × String))
  | deployAmi (amiArtifact : ArtifactLocation) (edp : EDP) (cfg : EnvConfig)
      (hasMigrations : Bool) (applicationUser : Option String) (subApp : String)
  | rollbackAsgs (edp : EDP) (deploymentArtifact : ArtifactLocation) (cfg : EnvConfig)
  | rollbackMigrations (edp : EDP) (applicationUser : String) (applicationName : String)
      (applicationPath : String) (dbUser : String) (dbPass : String)
      (migrationInfo : ArtifactLocation) (amiArtifact : ArtifactLocation) (subApp : String)
deriving DecidableEq, Repr

/-- A job: name, ordered task list, declared build artifacts. -/
structure Job where
  name : String
  tasks : List GoTask
  artifacts : List String
deriving DecidableEq, Repr

/-- A stage: name, manual-approval gate, jobs built by `stages.py`
builders, and recorded `jobs.*` calls from `apros.py`. -/
structure Stage where
  name : String
  manualApproval : Bool
  jobs : List Job
  jobCalls : List JobCall
deriving DecidableEq, Repr

/-- A pipeline: name, label template, materials, plain and encrypted
environment variables (a plain variable may carry Python `None`), stages. -/
structure Pipeline where
  name : String
  labelTemplate : Option String
  materials : List Material
  envVars : List (String × Option String)
  secureVars : List (String × String)
  stages : List Stage
deriving DecidableEq, Repr

/-- Group permission kinds, from `edxpipelines.patterns.authz.Permission`
(module not under src; modelled from the spec: admin / operate / view). -/
inductive Permission where
  | ADMINS
  | OPERATE
  | VIEW
deriving DecidableEq, Repr

/-- A pipeline group: name, pipelines, and granted role lists keyed by
permission. -/
structure PipelineGroup where
  name : String
  pipelines : List Pipeline
  authorization : List (Permission × List String)
deriving DecidableEq, Repr

/-- The GoCD configurator: the list of pipeline groups. -/
structure Configurator where
  groups : List PipelineGroup
deriving DecidableEq, Repr

/-- Python exceptions that the translated builders can raise. -/
inductive PyErr where
  | valueError (msg : String)
  | keyError
  | indexError
deriving DecidableEq, Repr

def freshStage (name : String) : Stage := ⟨name, false, [], []⟩

def freshJob (name : String) : Job := ⟨name, [], []⟩

def emptyPipeline (name : String) : Pipeline := ⟨name, none, [], [], [], []⟩

def emptyGroup (name : String) : PipelineGroup := ⟨name, [], []⟩

/-- gomatic `Pipeline.ensure_stage`: return the existing same-named stage
or append a fresh one. -/
def pipelineEnsureStage (p : Pipeline) (stageName : String) : Pipeline :=
  if p.stages.any (fun s => s.name == stageName) then p
  else { p with stages := p.stages ++ [freshStage stageName] }

/-- Apply a function to the stage(s) with the given name. -/
def pipelineUpdateStage (p : Pipeline) (stageName : String) (f : Stage → Stage) : Pipeline :=
  { p with stages := p.stages.map (fun s => if s.name == stageName then f s else s) }

/-- Look up a stage by name. -/
def findStage (p : Pipeline) (stageName : String) : Option Stage :=
  p.stages.find? (fun s => s.name == stageName)

/-- gomatic `Stage.set_has_manual_approval` applied to the named stage. -/
def setStageManualApproval (p : Pipeline) (stageName : String) : Pipeline :=
  pipelineUpdateStage p stageName (fun s => { s with manualApproval := true })

/-- gomatic `Stage.ensure_job`. -/
def stageEnsureJob (s : Stage) (jobName : String) : Stage :=
  if s.jobs.any (fun j => j.name == jobName) then s
  else { s with jobs := s.jobs ++ [freshJob jobName] }

/-- Apply a function to the job(s) with the given name. -/
def stageUpdateJob (s : Stage) (jobName : String) (f : Job → Job) : Stage :=
  { s with jobs := s.jobs.map (fun j => if j.name == jobName then f j else j) }

/-- Look up a job by name. -/
def findJob (s : Stage) (jobName : String) : Option Job :=
  s.jobs.find? (fun j => j.name == jobName)

/-- gomatic `Job.add_task`: append one task. -/
def jobAddTask (j : Job) (t : GoTask) : Job :=
  { j with tasks := j.tasks ++ [t] }

/-- gomatic `Job.ensure_artifacts` for a single build artifact. -/
def jobEnsureArtifact (j : Job) (a : String) : Job :=
  if j.artifacts.contains a then j else { j with artifacts := j.artifacts ++ [a] }

/-- Update the named job inside the named stage of a pipeline. -/
def jobUpdateIn (p : Pipeline) (stageName : String) (jobName : String) (f : Job → Job) :
    Pipeline :=
  pipelineUpdateStage p stageName (fun s => stageUpdateJob s jobName f)

/-- gomatic `Pipeline.ensure_material`: append the material unless an equal
one is present. -/
def pipelineEnsureMaterial (p : Pipeline) (m : Material) : Pipeline :=
  if p.materials.contains m then p else { p with materials := p.materials ++ [m] }

/-- Set one plain environment variable (replace in place or append). -/
def pipelineSetEnvVar (p : Pipeline) (k : String) (v : Option String) : Pipeline :=
  if p.envVars.any (fun kv => kv.fst == k) then
    { p with envVars := p.envVars.map (fun kv => if kv.fst == k then (k, v) else kv) }
  else
    { p with envVars := p.envVars ++ [(k, v)] }

/-- gomatic `Pipeline.ensure_environment_variables`. -/
def pipelineEnsureEnvVars (p : Pipeline) (kvs : List (String × Option String)) : Pipeline :=
  kvs.foldl (fun q kv => pipelineSetEnvVar q kv.fst kv.snd) p

/-- Set one encrypted environment variable (replace in place or append). -/
def pipelineSetSecureVar (p : Pipeline) (k : String) (v : String) : Pipeline :=
  if p.secureVars.any (fun kv => kv.fst == k) then
    { p with secureVars := p.secureVars.map (fun kv => if kv.fst == k then (k, v) else kv) }
  else
    { p with secureVars := p.secureVars ++ [(k, v)] }

/-- gomatic `Pipeline.ensure_encrypted_environment_variables`. -/
def pipelineEnsureSecureVars (p : Pipeline) (kvs : List (String × String)) : Pipeline :=
  kvs.foldl (fun q kv => pipelineSetSecureVar q kv.fst kv.snd) p

/-- Append a recorded `jobs.*` call to the named stage. -/
def pipelineAddJobCall (p : Pipeline) (stageName : String) (jc : JobCall) : Pipeline :=
  pipelineUpdateStage p stageName (fun s => { s with jobCalls := s.jobCalls ++ [jc] })

/-- Replace every same-named pipeline in place, or append when absent. -/
def listSetPipeline (l : List Pipeline) (p : Pipeline) : List Pipeline :=
  if l.any (fun q => q.name == p.name) then
    l.map (fun q => if q.name == p.name then p else q)
  else
    l ++ [p]

/-- gomatic `PipelineGroup.ensure_replacement_of_pipeline` followed by the
builder's framing of that pipeline: a same-named pipeline is replaced in
place, otherwise the pipeline is appended. -/
def groupSetPipeline (g : PipelineGroup) (p : Pipeline) : PipelineGroup :=
  { g with pipelines := listSetPipeline g.pipelines p }

/-- Look up a pipeline by name inside a group. -/
def findPipeline (g : PipelineGroup) (pipelineName : String) : Option Pipeline :=
  g.pipelines.find? (fun p => p.name == pipelineName)

/-- Helper for `pySet`: deduplicate, skipping the already-seen elements. -/
def pySetAux {α : Type} [BEq α] (seen : List α) : List α → List α
  | [] => []
  | a :: as => if seen.contains a then pySetAux seen as else a :: pySetAux (seen ++ [a]) as

/-- Insertion-ordered model of a Python set built by comprehension: the
input list with later duplicates removed. -/
def pySet {α : Type} [BEq α] (l : List α) : List α :=
  pySetAux [] l

/-- `collections.defaultdict(list)` keyed by `edp.environment`, filled in
input order (`apros.py` line 162-165): association list from environment
to the EDPs carrying it, keys in first-occurrence order. -/
def groupByEnv (edps : List EDP) : List (String × List EDP) :=
  edps.foldl
    (fun acc edp =>
      if acc.any (fun pr => pr.fst == edp.environment) then
        acc.map (fun pr =>
          if pr.fst == edp.environment then (pr.fst, pr.snd ++ [edp]) else pr)
      else
        acc ++ [(edp.environment, [edp])])
    []

/-! ### Constants

The `edxpipelines.constants` module is not under src.  The values below are
modelled from the spec: the stage/job/file names are part of the
inter-stage contract (spec section 6 names `ami_deploy_info.yml` and the
migration output directory), and `ENVIRONMENT_PIPELINE_NAME_TPL` derives a
pipeline name from environment and play (spec section 8: pipelines named
`stage-{play}` / `prod-{play}`).  Only their distinctness and the naming
template matter to the claims, not the exact spellings. -/

/-- Modelled from the spec: stage name for the AMI-build stage. -/
def BUILD_AMI_STAGE_NAME : String := "build_ami"

/-- Modelled from the spec: job name used by `stages.py` AMI building. -/
def BUILD_AMI_JOB_NAME : String := "build_ami_job"

/-- Modelled from the spec: stage name for the deploy stage. -/
def DEPLOY_AMI_STAGE_NAME : String := "deploy_ami"

/-- Modelled from the spec: job name used by `stages.generate_deploy_ami`. -/
def DEPLOY_AMI_JOB_NAME : String := "deploy_ami_job"

/-- Modelled from the spec: stage name for the ASG rollback stage. -/
def ROLLBACK_ASGS_STAGE_NAME : String := "rollback_asgs"

/-- Modelled from the spec: job name for the ASG rollback job. -/
def ROLLBACK_ASGS_JOB_NAME : String := "rollback_asgs_job"

/-- Modelled from the spec: stage name for the migrations rollback stage. -/
def ROLLBACK_MIGRATIONS_STAGE_NAME : String := "rollback_migrations"

/-- Modelled from the spec: name of the no-op armed stage. -/
def ARMED_STAGE_NAME : String := "armed_stage"

/-- Modelled from the spec: job name inside the armed stage. -/
def ARMED_JOB_NAME : String := "armed_job"

/-- Modelled from the spec: the artifact directory used by the scripts. -/
def ARTIFACT_PATH : String := "target"

/-- Modelled from the spec: AMI build output file name. -/
def BUILD_AMI_FILENAME : String := "ami.yml"

/-- Modelled from the spec: deploy-output file name (`ami_deploy_info.yml`). -/
def DEPLOY_AMI_OUT_FILENAME : String := "ami_deploy_info.yml"

/-- Modelled from the spec: rollback output file name. -/
def ROLLBACK_AMI_OUT_FILENAME : String := "rollback_info.yml"

/-- Modelled from the spec: migration output directory name. -/
def MIGRATION_OUTPUT_DIR_NAME : String := "migrations"

/-- Modelled from the spec: DB user for migrations. -/
def DB_MIGRATION_USER : String := "migrate"

/-- Modelled from the spec: playbook path for the McKinsey play. -/
def MCKA_PLAYBOOK_PATH : String := "playbooks/mcka_edxapp.yml"

/-- Modelled from the spec: sleep interval passed to tubular scripts. -/
def TUBULAR_SLEEP_WAIT_TIME : String := "60"

/-- Modelled from the spec: pipeline name template `{environment}-{play}`. -/
def ENVIRONMENT_PIPELINE_NAME_TPL (environment : String) (play : String) : String :=
  environment ++ "-" ++ play

/-- Modelled from the spec: label template derived from the app material. -/
def DEPLOYMENT_PIPELINE_LABEL_TPL (m : Material) : String :=
  "$\x7bCOUNT\x7d-$\x7b" ++ m.name ++ "\x7d"

/-- Modelled from the spec: AMI-build job name derived from an EDP. -/
def BUILD_AMI_JOB_NAME_TPL (edp : EDP) : String :=
  "build_" ++ edp.environment ++ "_" ++ edp.deployment ++ "_" ++ edp.play ++ "_ami"

/-- Modelled from the spec: deploy job name derived from an EDP. -/
def DEPLOY_AMI_JOB_NAME_TPL (edp : EDP) : String :=
  "deploy_" ++ edp.environment ++ "_" ++ edp.deployment ++ "_" ++ edp.play ++ "_ami"

/-! ### Materials

The `edxpipelines.materials` module is not under src; the factories below
are modelled from the spec (git materials for the tubular, configuration,
per-deployment secure/internal and application repositories). -/

/-- Modelled from the spec: the tubular scripts repository material. -/
def TUBULAR : Material :=
  Material.git "https://github.com/edx/tubular.git" none (some "tubular")

/-- Modelled from the spec: the edx/configuration repository material at
the given branch. -/
def CONFIGURATION (branch : Option String) : Material :=
  Material.git "https://github.com/edx/configuration.git" branch (some "configuration")

/-- Modelled from the spec: the secure configuration repository for a
deployment. -/
def deployment_secure (deployment : String) : Material :=
  Material.git ("git@github.com:edx-ops/" ++ deployment ++ "-secure.git") none
    (some "configuration_secure")

/-- Modelled from the spec: the internal configuration repository for a
deployment at the given branch. -/
def deployment_internal (deployment : String) (branch : Option String) : Material :=
  Material.git ("git@github.com:edx/" ++ deployment ++ "-internal.git") branch
    (some "configuration_internal")

/-- Modelled from the spec: the McKinsey Apros application repository
(`materials.EDX_APROS`). -/
def EDX_APROS : Material :=
  Material.git "https://github.com/mckinseyacademy/mcka_apros.git" none (some "mcka_apros")

/-- Modelled from the spec: bash expression for the GoCD revision
environment variable of a material (`materials.material_envvar_bash`). -/
def material_envvar_bash (m : Material) : String :=
  "$GO_REVISION_" ++ m.name.toUpper

/-! ### Stage builders translated from `edxpipelines/patterns/stages.py` -/

/-- Translated from `stages.generate_armed_stage` (stages.py lines
915-945): ensure the named stage, ensure the armed job, and add the echo
task. -/
def generate_armed_stage (pipeline : Pipeline) (stage_name : String) : Pipeline :=
  let p := pipelineEnsureStage pipeline stage_name
  pipelineUpdateStage p stage_name (fun s =>
    let s := stageEnsureJob s ARMED_JOB_NAME
    stageUpdateJob s ARMED_JOB_NAME (fun j =>
      jobAddTask j (GoTask.exec
        ["/bin/bash", "-c",
         "echo Pipeline run number $GO_PIPELINE_COUNTER armed by $GO_TRIGGER_USER"]
        none "passed")))

/-- Shared tail of `stages.generate_deploy_ami` (stages.py lines 392-404):
the mkdir task followed by the deployment-script exec task. -/
def deployAmiFinish (p : Pipeline) (job_command : List String) : Pipeline :=
  let p := jobUpdateIn p DEPLOY_AMI_STAGE_NAME DEPLOY_AMI_JOB_NAME (fun j =>
    jobAddTask j (GoTask.exec ["/bin/bash", "-c", "mkdir -p ../" ++ ARTIFACT_PATH]
      (some "tubular") "passed"))
  jobUpdateIn p DEPLOY_AMI_STAGE_NAME DEPLOY_AMI_JOB_NAME (fun j =>
    jobAddTask j (GoTask.exec job_command (some "tubular") "passed"))

/-- Translated from `stages.generate_deploy_ami` (stages.py lines
317-404): environment variables, deploy stage (optionally
manual-approval-gated), deploy job with requirements install, the
deployment-output build artifact, and either a fetch-artifact +
`--config-file` wiring (upstream artifact given) or an `AMI_ID`
environment variable + `--ami_id` wiring (no upstream artifact). -/
def generate_deploy_ami (pipeline : Pipeline) (asgard_api_endpoints : String)
    (asgard_token : String) (aws_access_key_id : String) (aws_secret_access_key : String)
    (upstream_ami_artifact : Option ArtifactLocation) (manual_approval : Bool) : Pipeline :=
  let p := pipelineEnsureEnvVars pipeline
    [("ASGARD_API_ENDPOINTS", some asgard_api_endpoints),
     ("WAIT_SLEEP_TIME", some TUBULAR_SLEEP_WAIT_TIME)]
  let p := pipelineEnsureSecureVars p
    [("ASGARD_API_TOKEN", asgard_token),
     ("AWS_ACCESS_KEY_ID", aws_access_key_id),
     ("AWS_SECRET_ACCESS_KEY", aws_secret_access_key)]
  let p := pipelineEnsureStage p DEPLOY_AMI_STAGE_NAME
  let p := if manual_approval then setStageManualApproval p DEPLOY_AMI_STAGE_NAME else p
  let p := pipelineUpdateStage p DEPLOY_AMI_STAGE_NAME (fun s =>
    stageEnsureJob s DEPLOY_AMI_JOB_NAME)
  let p := jobUpdateIn p DEPLOY_AMI_STAGE_NAME DEPLOY_AMI_JOB_NAME (fun j =>
    jobAddTask j (GoTask.requirementsInstall "tubular"))
  let artifact_path := ARTIFACT_PATH ++ "/" ++ DEPLOY_AMI_OUT_FILENAME
  let p := jobUpdateIn p DEPLOY_AMI_STAGE_NAME DEPLOY_AMI_JOB_NAME (fun j =>
    jobEnsureArtifact j artifact_path)
  let job_command :=
    ["/usr/bin/python", "scripts/asgard-deploy.py", "--out_file", "../" ++ artifact_path]
  match upstream_ami_artifact with
  | some a =>
    let p := jobUpdateIn p DEPLOY_AMI_STAGE_NAME DEPLOY_AMI_JOB_NAME (fun j =>
      jobAddTask j (GoTask.fetchArtifactFile a.pipeline a.stage a.job a.file_name "tubular"))
    deployAmiFinish p (job_command ++ ["--config-file", a.file_name])
  | none =>
    let p := pipelineEnsureEnvVars p [("AMI_ID", none)]
    deployAmiFinish p (job_command ++ ["--ami_id", "$AMI_ID"])

/-- Translated from `stages.generate_rollback_asg_stage` (stages.py lines
637-718): environment variables, the rollback-ASGs stage — which always
gets manual approval — and its job with requirements install, the
deploy-info fetch, the mkdir task, the rollback-output artifact and the
rollback-script exec task. -/
def generate_rollback_asg_stage (pipeline : Pipeline) (asgard_api_endpoints : String)
    (asgard_token : String) (aws_access_key_id : String) (aws_secret_access_key : String)
    (hipchat_auth_token : String) (hipchat_room : String)
    (deploy_file_location : ArtifactLocation) : Pipeline :=
  let p := pipelineEnsureEnvVars pipeline
    [("ASGARD_API_ENDPOINTS", some asgard_api_endpoints),
     ("HIPCHAT_ROOM", some hipchat_room)]
  let p := pipelineEnsureSecureVars p
    [("ASGARD_API_TOKEN", asgard_token),
     ("AWS_ACCESS_KEY_ID", aws_access_key_id),
     ("AWS_SECRET_ACCESS_KEY", aws_secret_access_key),
     ("HIPCHAT_TOKEN", hipchat_auth_token)]
  let p := pipelineEnsureStage p ROLLBACK_ASGS_STAGE_NAME
  -- Important: Do *not* automatically rollback! Always manual...
  let p := setStageManualApproval p ROLLBACK_ASGS_STAGE_NAME
  let p := pipelineUpdateStage p ROLLBACK_ASGS_STAGE_NAME (fun s =>
    stageEnsureJob s ROLLBACK_ASGS_JOB_NAME)
  let artifact_path := ARTIFACT_PATH ++ "/" ++ ROLLBACK_AMI_OUT_FILENAME
  jobUpdateIn p ROLLBACK_ASGS_STAGE_NAME ROLLBACK_ASGS_JOB_NAME (fun j =>
    let j := jobAddTask j (GoTask.requirementsInstall "tubular")
    let j := jobAddTask j (GoTask.fetchArtifactFile deploy_file_location.pipeline
      deploy_file_location.stage deploy_file_location.job deploy_file_location.file_name
      "tubular")
    let j := jobAddTask j (GoTask.exec ["/bin/bash", "-c", "mkdir -p ../target"]
      (some "tubular") "passed")
    let j := jobEnsureArtifact j artifact_path
    jobAddTask j (GoTask.exec
      ["/usr/bin/python", "scripts/rollback_asg.py",
       "--config_file", deploy_file_location.file_name,
       "--out_file", "../" ++ artifact_path]
      (some "tubular") "passed"))

/-! ### Group and pipeline builders translated from `edxpipelines/patterns/apros.py` -/

/-- Modelled from the spec (the `edxpipelines.patterns.authz` module is not
under src): grant the given roles the given permission on the pipeline
group, replacing any previous grant for that permission. -/
def ensure_permissions (g : PipelineGroup) (perm : Permission) (roles : List String) :
    PipelineGroup :=
  if g.authorization.any (fun pr => pr.fst == perm) then
    { g with authorization :=
        g.authorization.map (fun pr => if pr.fst == perm then (perm, roles) else pr) }
  else
    { g with authorization := g.authorization ++ [(perm, roles)] }

/-- Translated from `apros.generate_service_pipeline_group` (apros.py lines
70-86): remove any pipeline group named after the play, create a fresh
one, and grant the `{play}-admin` and `{play}-operator` roles.  Returns
the updated configurator together with the created group. -/
def generate_service_pipeline_group (configurator : Configurator) (play : String) :
    Configurator × PipelineGroup :=
  -- Replace any existing pipeline group with a fresh one.
  let groups1 := configurator.groups.filter (fun g => !(g.name == play))
  let pipeline_group := emptyGroup play
  -- Create admin and operator roles to control pipeline group access.
  let admin_role := play ++ "-admin"
  let pipeline_group := ensure_permissions pipeline_group Permission.ADMINS [admin_role]
  let operator_role := play ++ "-operator"
  let pipeline_group := ensure_permissions pipeline_group Permission.OPERATE [operator_role]
  let pipeline_group := ensure_permissions pipeline_group Permission.VIEW [operator_role]
  (⟨groups1 ++ [pipeline_group]⟩, pipeline_group)

/-- The `DeploymentStages` named tuple of apros.py (line 89), holding the
names of the three deployment-lifecycle stages (`rollback_migrations` is
`None` when the service has no migrations). -/
structure DeploymentStages where
  deploy : String
  rollback_asgs : String
  rollback_migrations : Option String
deriving DecidableEq, Repr

/-- Translated from `apros._generate_deployment_stages` (apros.py lines
92-117): ensure the deploy stage, the rollback-ASGs stage (always given
manual approval), and — only with migrations — the rollback-migrations
stage (also always given manual approval). -/
def generate_deployment_stages (pipeline : Pipeline) (has_migrations : Bool) :
    Pipeline × DeploymentStages :=
  let p := pipelineEnsureStage pipeline DEPLOY_AMI_STAGE_NAME
  let p := pipelineEnsureStage p ROLLBACK_ASGS_STAGE_NAME
  -- Rollback stages always require manual approval from the operator.
  let p := setStageManualApproval p ROLLBACK_ASGS_STAGE_NAME
  if has_migrations then
    let p := pipelineEnsureStage p ROLLBACK_MIGRATIONS_STAGE_NAME
    -- Rollback stages always require manual approval from the operator.
    let p := setStageManualApproval p ROLLBACK_MIGRATIONS_STAGE_NAME
    (p, ⟨DEPLOY_AMI_STAGE_NAME, ROLLBACK_ASGS_STAGE_NAME, some ROLLBACK_MIGRATIONS_STAGE_NAME⟩)
  else
    (p, ⟨DEPLOY_AMI_STAGE_NAME, ROLLBACK_ASGS_STAGE_NAME, none⟩)

/-- Result of `generate_service_deployment_pipelines`: the pipeline group
(with whatever mutation happened before a raise), the raised exception if
any, and the `DeploymentStages` bundles that were created. -/
structure GenResult where
  group : PipelineGroup
  error : Option PyErr
  cd_deploy_stages : Option DeploymentStages
  manual_deploy_stages : Option DeploymentStages
deriving DecidableEq, Repr

/-- apros.py lines 173-175: resolve the continuous-deployment pipeline
name; `cd_envs.pop()` raises `KeyError` when there are no
continuous-deployment EDPs and no explicit name was given. -/
def resolveCdName (pop : List String → String) (continuous_deployment_edps : List EDP)
    (cd_pipeline_name : Option String) (play : String) : Except PyErr String :=
  match cd_pipeline_name with
  | some n => Except.ok n
  | none =>
    match pySet (continuous_deployment_edps.map EDP.environment) with
    | [] => Except.error PyErr.keyError
    | cd_envs => Except.ok (ENVIRONMENT_PIPELINE_NAME_TPL (pop cd_envs) play)

/-- apros.py lines 185-192: resolve the manual pipeline name, raising
`ValueError` when the manual-deployment EDPs span several environments
and no explicit name was given.  Only called with a nonempty EDP list. -/
def resolveManualName (pop : List String → String) (manual_deployment_edps : List EDP)
    (manual_pipeline_name : Option String) (play : String) : Except PyErr String :=
  match manual_pipeline_name with
  | some n => Except.ok n
  | none =>
    let manual_envs := pySet (manual_deployment_edps.map EDP.environment)
    if manual_envs.length > 1 then
      Except.error (PyErr.valueError
        "Only one environment is allowed in manual_deployment_edps if no manual_pipeline_name is specified")
    else
      Except.ok (ENVIRONMENT_PIPELINE_NAME_TPL (pop manual_envs) play)

/-- apros.py lines 178-181: frame the continuous-deployment pipeline —
replacement pipeline with the deployment label template, the build-AMI
stage and the deployment stages. -/
def frameCdPipeline (app_material : Material) (cdName : String) (has_migrations : Bool) :
    Pipeline × DeploymentStages :=
  let p := { emptyPipeline cdName with
    labelTemplate := some (DEPLOYMENT_PIPELINE_LABEL_TPL app_material) }
  let p := pipelineEnsureStage p BUILD_AMI_STAGE_NAME
  generate_deployment_stages p has_migrations

/-- apros.py lines 194-214: frame the manual pipeline — replacement
pipeline whose only pipeline-level material references the continuous
pipeline's build stage, sharing its label, with the armed stage and the
deployment stages, the deploy stage being manual-approval-gated. -/
def frameManualPipeline (cdName : String) (mName : String) (has_migrations : Bool) :
    Pipeline × DeploymentStages :=
  let p := emptyPipeline mName
  let p := pipelineEnsureMaterial p (Material.pipelineMat cdName BUILD_AMI_STAGE_NAME cdName)
  -- Pipelines return their label when referenced by name; share the CD label.
  let p := { p with labelTemplate := some ("$\x7b" ++ cdName ++ "\x7d") }
  let p := generate_armed_stage p ARMED_STAGE_NAME
  let (p, ds) := generate_deployment_stages p has_migrations
  (setStageManualApproval p ds.deploy, ds)

/-- apros.py lines 220-243: the materials common to both pipelines —
tubular, configuration, and the per-deployment secure/internal materials
(dictionary values keyed by EDP, hence deduplicated by EDP). -/
def commonMaterialsOf (configuration_branch : Option String) (all_edps : List EDP) :
    List Material :=
  [TUBULAR, CONFIGURATION configuration_branch]
    ++ (pySet all_edps).map (fun edp => deployment_secure edp.deployment)
    ++ (pySet all_edps).map (fun edp => deployment_internal edp.deployment configuration_branch)

/-- apros.py lines 246-272: one `jobs.generate_build_ami` call per
environment.  Accessing `(ed_dict[ed])[1]` raises `IndexError` when the
environment has fewer than two EDPs; the loop stops at the raise. -/
def buildLoop (config : EDP → EnvConfig) (app_material : Material) (play : String)
    (configuration_branch : Option String) (configuration_material : Material)
    (cd : Pipeline) : List (String × List EDP) → Pipeline × Option PyErr
  | [] => (cd, none)
  | (_, edps) :: rest =>
    let app_version_var := material_envvar_bash app_material
    let overrides :=
      [("app_version", app_version_var), (play.toUpper ++ "_VERSION", app_version_var)]
    match edps with
    | edp0 :: edp1 :: _ =>
      let secure_material := deployment_secure edp0.deployment
      let internal_material := deployment_internal edp0.deployment configuration_branch
      let version_tags :=
        [(edp0.play, app_material.url, app_version_var),
         (edp1.play, app_material.url, app_version_var),
         ("configuration", configuration_material.url,
           material_envvar_bash configuration_material),
         ("configuration_secure", secure_material.url, material_envvar_bash secure_material),
         ("configuration_internal", internal_material.url,
           material_envvar_bash internal_material)]
      let jc := JobCall.buildAmi edps app_material.url secure_material internal_material
        MCKA_PLAYBOOK_PATH (config edp0) version_tags overrides
      buildLoop config app_material play configuration_branch configuration_material
        (pipelineAddJobCall cd BUILD_AMI_STAGE_NAME jc) rest
    | _ => (cd, some PyErr.indexError)

/-- apros.py line 24: the stage McKinsey edxapp EDP. -/
def STAGE_MCKA_EDXAPP : EDP := ⟨"stage", "mckinsey", "edxapp"⟩

/-- apros.py line 25: the stage McKinsey apros EDP. -/
def STAGE_MCKA_APROS : EDP := ⟨"stage", "mckinsey", "apros"⟩

/-- apros.py line 26: the prod McKinsey edxapp EDP. -/
def PROD_MCKA_EDXAPP : EDP := ⟨"prod", "mckinsey", "edxapp"⟩

/-- apros.py line 27: the prod McKinsey apros EDP. -/
def PROD_MCKA_APROS : EDP := ⟨"prod", "mckinsey", "apros"⟩

/-- apros.py line 28: the McKinsey sub-applications. -/
def MCKA_SUBAPPS : List String := ["cms", "lms", "apros"]

/-- apros.py lines 281-333, one iteration of the sub-application loop for
one EDP: one deploy job call, one rollback-ASGs job call, and — with
migrations — one rollback-migrations job call. -/
def deploySubApp (cdName : String) (config : EDP → EnvConfig) (has_migrations : Bool)
    (application_user : Option String) (ds : DeploymentStages) (pname : String) (edp : EDP)
    (q : Pipeline) (sub_app : String) : Pipeline :=
  let ami_artifact_location : ArtifactLocation :=
    ⟨cdName, BUILD_AMI_STAGE_NAME, BUILD_AMI_JOB_NAME_TPL edp, BUILD_AMI_FILENAME, false⟩
  let q := pipelineAddJobCall q ds.deploy
    (JobCall.deployAmi ami_artifact_location edp (config edp) has_migrations
      application_user sub_app)
  let deployment_artifact_location : ArtifactLocation :=
    ⟨pname, DEPLOY_AMI_STAGE_NAME, DEPLOY_AMI_JOB_NAME_TPL edp,
      DEPLOY_AMI_OUT_FILENAME, false⟩
  let q := pipelineAddJobCall q ds.rollback_asgs
    (JobCall.rollbackAsgs edp deployment_artifact_location (config edp))
  if has_migrations then
    let migration_info_location : ArtifactLocation :=
      ⟨pname, DEPLOY_AMI_STAGE_NAME ++ "_" ++ sub_app, DEPLOY_AMI_JOB_NAME_TPL edp,
        MIGRATION_OUTPUT_DIR_NAME, true⟩
    match ds.rollback_migrations with
    | some rbm =>
      pipelineAddJobCall q rbm
        (JobCall.rollbackMigrations edp edp.play edp.play ("/edx/app/" ++ edp.play)
          DB_MIGRATION_USER (config edp).db_migration_pass migration_info_location
          ami_artifact_location sub_app)
    | none => q  -- unreachable: with migrations the bundle holds the stage
  else q

/-- apros.py lines 279-333, inner loop body for one EDP: one deploy /
rollback-ASGs (/ rollback-migrations) job call per sub-application. -/
def deployLoopEdp (cdName : String) (config : EDP → EnvConfig) (has_migrations : Bool)
    (application_user : Option String) (ds : DeploymentStages) (p : Pipeline) (edp : EDP) :
    Pipeline :=
  MCKA_SUBAPPS.foldl (deploySubApp cdName config has_migrations application_user ds p.name edp)
    p

/-- apros.py lines 275-333, one pipeline's worth of the deploy loop. -/
def deployLoop (cdName : String) (config : EDP → EnvConfig) (has_migrations : Bool)
    (application_user : Option String) (ds : DeploymentStages) (p : Pipeline)
    (edps : List EDP) : Pipeline :=
  edps.foldl (deployLoopEdp cdName config has_migrations application_user ds) p

/-- apros.py lines 220-333, the part after both pipelines are framed:
ensure the common and application materials, run the per-environment
AMI-build loop (which can raise `IndexError`), then the per-EDP deploy
loop, and assemble the final group.  On a raise the group keeps the
mutation performed so far. -/
def generateServiceDeploymentPipelinesTail (pipeline_group : PipelineGroup)
    (config : EDP → EnvConfig) (app_material : Material)
    (continuous_deployment_edps : List EDP) (manual_deployment_edps : List EDP)
    (configuration_branch : Option String) (has_migrations : Bool)
    (application_user : Option String) (play : String) (cdName : String)
    (cdFramed : Pipeline) (cd_deploy_stages : DeploymentStages)
    (manualOpt : Option (Pipeline × DeploymentStages)) : GenResult :=
  let all_edps := continuous_deployment_edps ++ manual_deployment_edps
  let ed_dict := groupByEnv all_edps
  let configuration_material := CONFIGURATION configuration_branch
  let commons := commonMaterialsOf configuration_branch all_edps
  let cdM := commons.foldl pipelineEnsureMaterial cdFramed
  let manualOpt := manualOpt.map
    (fun pr => (commons.foldl pipelineEnsureMaterial pr.fst, pr.snd))
  let cdM := pipelineEnsureMaterial cdM app_material
  match buildLoop config app_material play configuration_branch configuration_material
      cdM ed_dict with
  | (cdB, some e) =>
    let g := groupSetPipeline pipeline_group cdB
    let g :=
      match manualOpt with
      | some pr => groupSetPipeline g pr.fst
      | none => g
    ⟨g, some e, some cd_deploy_stages, manualOpt.map Prod.snd⟩
  | (cdB, none) =>
    let cdD := deployLoop cdName config has_migrations application_user cd_deploy_stages
      cdB continuous_deployment_edps
    let manualOpt2 := manualOpt.map (fun pr =>
      (deployLoop cdName config has_migrations application_user pr.snd pr.fst
        manual_deployment_edps, pr.snd))
    let g := groupSetPipeline pipeline_group cdD
    let g :=
      match manualOpt2 with
      | some pr => groupSetPipeline g pr.fst
      | none => g
    ⟨g, none, some cd_deploy_stages, manualOpt2.map Prod.snd⟩

/-- Translated from `apros.generate_service_deployment_pipelines` (apros.py
lines 120-333).  `pop` models Python's `set.pop()`; the builder raises
`ValueError` when no EDP is supplied (before any mutation) and when the
manual EDPs span several environments with no explicit name (after the
continuous-deployment pipeline has been framed into the group), and it
propagates the `KeyError` / `IndexError` of the underlying operations. -/
def generate_service_deployment_pipelines (pop : List String → String)
    (pipeline_group : PipelineGroup) (config : EDP → EnvConfig) (app_material : Material)
    (continuous_deployment_edps : List EDP) (manual_deployment_edps : List EDP)
    (configuration_branch : Option String) (has_migrations : Bool)
    (cd_pipeline_name : Option String) (manual_pipeline_name : Option String)
    (application_user : Option String) : GenResult :=
  let all_edps := continuous_deployment_edps ++ manual_deployment_edps
  let plays := pySet (all_edps.map EDP.play)
  match plays with
  | [] =>
    ⟨pipeline_group,
     some (PyErr.valueError
       "generate_service_deployment_pipelines needs at least one EDP to deploy"),
     none, none⟩
  | _ :: _ =>
    let play := pop plays
    match resolveCdName pop continuous_deployment_edps cd_pipeline_name play with
    | Except.error e => ⟨pipeline_group, some e, none, none⟩
    | Except.ok cdName =>
      -- Frame out the continuous deployment pipeline
      let fr := frameCdPipeline app_material cdName has_migrations
      -- Frame out the manual deployment pipeline (wired to the CD pipeline)
      match manual_deployment_edps with
      | [] =>
        generateServiceDeploymentPipelinesTail pipeline_group config app_material
          continuous_deployment_edps manual_deployment_edps configuration_branch
          has_migrations application_user play cdName fr.fst fr.snd none
      | _ :: _ =>
        match resolveManualName pop manual_deployment_edps manual_pipeline_name play with
        | Except.error e =>
          ⟨groupSetPipeline pipeline_group fr.fst, some e, some fr.snd, none⟩
        | Except.ok mName =>
          generateServiceDeploymentPipelinesTail pipeline_group config app_material
            continuous_deployment_edps manual_deployment_edps configuration_branch
            has_migrations application_user play cdName fr.fst fr.snd
            (some (frameManualPipeline cdName mName has_migrations))

/-! ### Generic list helpers for the ensure/update operations -/

theorem find?_map_update {α : Type} (l : List α) (name : α → String) (n : String)
    (f : α → α) (hf : ∀ a, name (f a) = name a) :
    (l.map (fun a => if name a == n then f a else a)).find? (fun a => name a == n)
      = (l.find? (fun a => name a == n)).map f := by
  induction l with
  | nil => rfl
  | cons a as ih =>
    by_cases h : name a == n
    · have h2 : (name (f a) == n) = true := by rw [hf a]; exact h
      rw [List.map_cons, if_pos h, List.find?_cons, h2, List.find?_cons, h]
      rfl
    · have hb : (name a == n) = false := by simpa using h
      rw [List.map_cons, if_neg h, List.find?_cons, hb, List.find?_cons, hb]
      exact ih

theorem find?_append_fresh {α : Type} (l : List α) (pred : α → Bool) (fresh : α)
    (hfresh : pred fresh = true) (h : l.any pred = false) :
    (l ++ [fresh]).find? pred = some fresh := by
  rw [List.find?_append]
  have : l.find? pred = none := by
    rw [List.find?_eq_none]
    intro x hx
    exact (List.any_eq_false.mp h x hx)
  rw [this, Option.none_or, List.find?_cons_of_pos _ hfresh]

/-! ### findStage / findJob after the ensure/update operations -/

theorem findStage_update_self (p : Pipeline) (n : String) (f : Stage → Stage)
    (hf : ∀ s, (f s).name = s.name) :
    findStage (pipelineUpdateStage p n f) n = (findStage p n).map f := by
  unfold findStage pipelineUpdateStage
  exact find?_map_update p.stages Stage.name n f hf

theorem findStage_ensure_of_none (p : Pipeline) (n : String)
    (h : findStage p n = none) :
    findStage (pipelineEnsureStage p n) n = some (freshStage n) := by
  unfold findStage pipelineEnsureStage
  have hany : p.stages.any (fun s => s.name == n) = false := by
    rw [List.any_eq_false]
    intro s hs
    have := List.find?_eq_none.mp h s hs
    simpa using this
  rw [if_neg (by simp [hany])]
  exact find?_append_fresh _ _ _ (by simp [freshStage]) hany

theorem find?_map_update_ne {α : Type} (l : List α) (name : α → String) (n m : String)
    (f : α → α) (hf : ∀ a, name (f a) = name a) (hnm : m ≠ n) :
    (l.map (fun a => if name a == m then f a else a)).find? (fun a => name a == n)
      = l.find? (fun a => name a == n) := by
  induction l with
  | nil => rfl
  | cons a as ih =>
    by_cases h : (name a == m) = true
    · have ha : name a = m := eq_of_beq h
      have h1 : (name (f a) == n) = false := by
        rw [hf a, ha]
        exact beq_eq_false_iff_ne.mpr hnm
      have h2 : (name a == n) = false := by
        rw [ha]; exact beq_eq_false_iff_ne.mpr hnm
      rw [List.map_cons, if_pos h, List.find?_cons, h1, List.find?_cons, h2]
      exact ih
    · rw [List.map_cons, if_neg h]
      by_cases h2 : (name a == n) = true
      · rw [List.find?_cons, h2, List.find?_cons, h2]
      · have hb : (name a == n) = false := by simpa using h2
        rw [List.find?_cons, hb, List.find?_cons, hb]
        exact ih

theorem find?_append_single_ne {α : Type} (l : List α) (pred : α → Bool) (fresh : α)
    (hfresh : pred fresh = false) :
    (l ++ [fresh]).find? pred = l.find? pred := by
  rw [List.find?_append]
  have : [fresh].find? pred = none := by
    rw [List.find?_cons, hfresh]
    rfl
  rw [this]
  cases l.find? pred <;> rfl

theorem findStage_ensure_isSome (p : Pipeline) (n : String) :
    (findStage (pipelineEnsureStage p n) n).isSome = true := by
  unfold findStage pipelineEnsureStage
  by_cases h : p.stages.any (fun s => s.name == n) = true
  · rw [if_pos (by simpa using h)]
    rcases List.any_eq_true.mp h with ⟨s, hs, hp⟩
    have h2 : (p.stages.find? (fun s => s.name == n)).isSome = true :=
      List.find?_isSome.mpr ⟨s, hs, hp⟩
    exact h2
  · have hany : p.stages.any (fun s => s.name == n) = false := by simpa using h
    rw [if_neg (by simp [hany])]
    rw [find?_append_fresh _ _ _ (by simp [freshStage]) hany]
    rfl

theorem findStage_update_ne (p : Pipeline) (n m : String) (f : Stage → Stage)
    (hf : ∀ s, (f s).name = s.name) (hnm : m ≠ n) :
    findStage (pipelineUpdateStage p m f) n = findStage p n := by
  unfold findStage pipelineUpdateStage
  exact find?_map_update_ne p.stages Stage.name n m f hf hnm

theorem findStage_ensure_ne (p : Pipeline) (n m : String) (hnm : m ≠ n) :
    findStage (pipelineEnsureStage p m) n = findStage p n := by
  unfold findStage pipelineEnsureStage
  split
  · rfl
  · exact find?_append_single_ne _ _ _ (by simp [freshStage, hnm])

/-- After ensuring a stage and switching on manual approval, the stage
reports manual approval, whatever the starting pipeline. -/
theorem findStage_manual_after (p : Pipeline) (n : String) :
    (findStage (setStageManualApproval (pipelineEnsureStage p n) n) n).map
      Stage.manualApproval = some true := by
  unfold setStageManualApproval
  rw [findStage_update_self (pipelineEnsureStage p n) n
    (fun s => { s with manualApproval := true }) (fun s => rfl)]
  have h := findStage_ensure_isSome p n
  rcases he : findStage (pipelineEnsureStage p n) n with _ | s
  · rw [he] at h
    simp at h
  · rfl

/-! ### Stage skeleton (name, manual-approval) bookkeeping -/

/-- The (name, manual approval) skeleton of a pipeline's stages. -/
def stagePairs (p : Pipeline) : List (String × Bool) :=
  p.stages.map (fun s => (s.name, s.manualApproval))

theorem stagePairs_ensureMaterial (p : Pipeline) (m : Material) :
    stagePairs (pipelineEnsureMaterial p m) = stagePairs p := by
  unfold pipelineEnsureMaterial
  split <;> rfl

theorem stagePairs_foldl_ensureMaterial (ms : List Material) (p : Pipeline) :
    stagePairs (ms.foldl pipelineEnsureMaterial p) = stagePairs p := by
  induction ms generalizing p with
  | nil => rfl
  | cons m ms ih => rw [List.foldl_cons, ih, stagePairs_ensureMaterial]

theorem stagePairs_update (p : Pipeline) (n : String) (f : Stage → Stage)
    (hn : ∀ s, (f s).name = s.name) (hm : ∀ s, (f s).manualApproval = s.manualApproval) :
    stagePairs (pipelineUpdateStage p n f) = stagePairs p := by
  unfold stagePairs pipelineUpdateStage
  simp only [List.map_map]
  apply List.map_congr_left
  intro s _
  simp only [Function.comp_apply]
  by_cases h : (s.name == n) = true
  · rw [if_pos h, hn s, hm s]
  · rw [if_neg h]

theorem stagePairs_addJobCall (p : Pipeline) (n : String) (jc : JobCall) :
    stagePairs (pipelineAddJobCall p n jc) = stagePairs p := by
  unfold pipelineAddJobCall
  exact stagePairs_update p n _ (fun s => rfl) (fun s => rfl)

theorem stagePairs_foldl_of {β : Type} (g : Pipeline → β → Pipeline)
    (h : ∀ p b, stagePairs (g p b) = stagePairs p) (l : List β) (p : Pipeline) :
    stagePairs (l.foldl g p) = stagePairs p := by
  induction l generalizing p with
  | nil => rfl
  | cons b bs ih => rw [List.foldl_cons, ih, h]

theorem stagePairs_deploySubApp (cdName : String) (config : EDP → EnvConfig)
    (has_migrations : Bool) (application_user : Option String) (ds : DeploymentStages)
    (pname : String) (edp : EDP) (q : Pipeline) (sub_app : String) :
    stagePairs (deploySubApp cdName config has_migrations application_user ds pname edp
      q sub_app) = stagePairs q := by
  unfold deploySubApp
  cases has_migrations with
  | false => simp [stagePairs_addJobCall]
  | true =>
    cases ds.rollback_migrations with
    | none => simp [stagePairs_addJobCall]
    | some rbm => simp [stagePairs_addJobCall]

theorem stagePairs_deployLoopEdp (cdName : String) (config : EDP → EnvConfig)
    (has_migrations : Bool) (application_user : Option String) (ds : DeploymentStages)
    (p : Pipeline) (edp : EDP) :
    stagePairs (deployLoopEdp cdName config has_migrations application_user ds p edp)
      = stagePairs p := by
  unfold deployLoopEdp
  exact stagePairs_foldl_of _ (fun q b => stagePairs_deploySubApp _ _ _ _ _ _ _ _ _) _ _

theorem stagePairs_deployLoop (cdName : String) (config : EDP → EnvConfig)
    (has_migrations : Bool) (application_user : Option String) (ds : DeploymentStages)
    (p : Pipeline) (edps : List EDP) :
    stagePairs (deployLoop cdName config has_migrations application_user ds p edps)
      = stagePairs p := by
  unfold deployLoop
  exact stagePairs_foldl_of _ (fun q b => stagePairs_deployLoopEdp _ _ _ _ _ _ _) _ _

theorem stagePairs_buildLoop (config : EDP → EnvConfig) (app_material : Material)
    (play : String) (configuration_branch : Option String)
    (configuration_material : Material) (cd : Pipeline) (l : List (String × List EDP)) :
    stagePairs (buildLoop config app_material play configuration_branch
      configuration_material cd l).fst = stagePairs cd := by
  induction l generalizing cd with
  | nil => rfl
  | cons pr rest ih =>
    rcases pr with ⟨ed, edps⟩
    rcases edps with _ | ⟨e0, edps2⟩
    · rfl
    · rcases edps2 with _ | ⟨e1, tl⟩
      · rfl
      · rw [buildLoop, ih, stagePairs_addJobCall]

/-! ### The rollback-stages-are-manual invariant -/

/-- A stage is fine for the rollback invariant: it is not a rollback stage,
or it requires manual approval. -/
def stageRollbackOk (s : Stage) : Bool :=
  !(s.name == ROLLBACK_ASGS_STAGE_NAME || s.name == ROLLBACK_MIGRATIONS_STAGE_NAME)
    || s.manualApproval

/-- Every rollback stage of the pipeline requires manual approval. -/
def rollbackStagesManual (p : Pipeline) : Bool :=
  p.stages.all stageRollbackOk

def pairRollbackOk (pr : String × Bool) : Bool :=
  !(pr.fst == ROLLBACK_ASGS_STAGE_NAME || pr.fst == ROLLBACK_MIGRATIONS_STAGE_NAME)
    || pr.snd

theorem rollbackStagesManual_eq_pairs (p : Pipeline) :
    rollbackStagesManual p = (stagePairs p).all pairRollbackOk := by
  unfold rollbackStagesManual stagePairs
  induction p.stages with
  | nil => rfl
  | cons s ss ih => simp only [List.all_cons, List.map_cons, ih]; rfl

theorem rollback_of_pairs (p q : Pipeline) (h : stagePairs p = stagePairs q) :
    rollbackStagesManual p = rollbackStagesManual q := by
  rw [rollbackStagesManual_eq_pairs, rollbackStagesManual_eq_pairs, h]

theorem stagePairs_frameCd (a : Material) (n : String) (hm : Bool) :
    stagePairs (frameCdPipeline a n hm).fst =
      [(BUILD_AMI_STAGE_NAME, false), (DEPLOY_AMI_STAGE_NAME, false),
       (ROLLBACK_ASGS_STAGE_NAME, true)]
      ++ (if hm then [(ROLLBACK_MIGRATIONS_STAGE_NAME, true)] else []) := by
  cases hm <;> rfl

theorem stagePairs_frameManual (cdName mName : String) (hm : Bool) :
    stagePairs (frameManualPipeline cdName mName hm).fst =
      [(ARMED_STAGE_NAME, false), (DEPLOY_AMI_STAGE_NAME, true),
       (ROLLBACK_ASGS_STAGE_NAME, true)]
      ++ (if hm then [(ROLLBACK_MIGRATIONS_STAGE_NAME, true)] else []) := by
  cases hm <;> rfl

theorem group_all_setPipeline (g : PipelineGroup) (p : Pipeline) (Q : Pipeline → Bool)
    (hg : g.pipelines.all Q = true) (hp : Q p = true) :
    (groupSetPipeline g p).pipelines.all Q = true := by
  unfold groupSetPipeline listSetPipeline
  dsimp only
  split
  · rw [List.all_eq_true]
    intro x hx
    rcases List.mem_map.mp hx with ⟨q, hq, rfl⟩
    by_cases h : (q.name == p.name) = true
    · rw [if_pos h]; exact hp
    · rw [if_neg h]; exact List.all_eq_true.mp hg q hq
  · rw [List.all_append]
    simp [hg, hp]

theorem rollback_frameCd (a : Material) (n : String) (hm : Bool) :
    rollbackStagesManual (frameCdPipeline a n hm).fst = true := by
  rw [rollbackStagesManual_eq_pairs, stagePairs_frameCd]
  cases hm <;> rfl

theorem rollback_frameManual (cdName mName : String) (hm : Bool) :
    rollbackStagesManual (frameManualPipeline cdName mName hm).fst = true := by
  rw [rollbackStagesManual_eq_pairs, stagePairs_frameManual]
  cases hm <;> rfl

theorem tail_all_rollback (grp : PipelineGroup) (config : EDP → EnvConfig)
    (app_material : Material) (cont manual : List EDP) (br : Option String) (hm : Bool)
    (appU : Option String) (play cdName : String) (cdF : Pipeline) (cdDS : DeploymentStages)
    (mOpt : Option (Pipeline × DeploymentStages))
    (hg : grp.pipelines.all rollbackStagesManual = true)
    (hcd : rollbackStagesManual cdF = true)
    (hman : mOpt.all (fun pr => rollbackStagesManual pr.fst) = true) :
    (generateServiceDeploymentPipelinesTail grp config app_material cont manual br hm appU
      play cdName cdF cdDS mOpt).group.pipelines.all rollbackStagesManual = true := by
  rcases mOpt with _ | ⟨mp, mds⟩
  · simp only [generateServiceDeploymentPipelinesTail, Option.map_none']
    split
    next cdB e heq =>
      have hfst := congrArg Prod.fst heq
      dsimp only at hfst
      have h1 : rollbackStagesManual cdB = true := by
        rw [rollback_of_pairs cdB cdF ?hpr]
        · exact hcd
        case hpr =>
          rw [← hfst, stagePairs_buildLoop, stagePairs_ensureMaterial,
            stagePairs_foldl_ensureMaterial]
      exact group_all_setPipeline _ _ _ hg h1
    next cdB heq =>
      have hfst := congrArg Prod.fst heq
      dsimp only at hfst
      have h1 : rollbackStagesManual (deployLoop cdName config hm appU cdDS cdB cont)
          = true := by
        rw [rollback_of_pairs _ cdF ?hpr]
        · exact hcd
        case hpr =>
          rw [stagePairs_deployLoop, ← hfst, stagePairs_buildLoop,
            stagePairs_ensureMaterial, stagePairs_foldl_ensureMaterial]
      exact group_all_setPipeline _ _ _ hg h1
  · simp only [generateServiceDeploymentPipelinesTail, Option.map_some']
    have hmp : rollbackStagesManual mp = true := by simpa using hman
    split
    next cdB e heq =>
      have hfst := congrArg Prod.fst heq
      dsimp only at hfst
      have h1 : rollbackStagesManual cdB = true := by
        rw [rollback_of_pairs cdB cdF ?hpr]
        · exact hcd
        case hpr =>
          rw [← hfst, stagePairs_buildLoop, stagePairs_ensureMaterial,
            stagePairs_foldl_ensureMaterial]
      have h2 : rollbackStagesManual ((commonMaterialsOf br (cont ++ manual)).foldl
          pipelineEnsureMaterial mp) = true := by
        rw [rollback_of_pairs _ mp (stagePairs_foldl_ensureMaterial _ _)]
        exact hmp
      exact group_all_setPipeline _ _ _ (group_all_setPipeline _ _ _ hg h1) h2
    next cdB heq =>
      have hfst := congrArg Prod.fst heq
      dsimp only at hfst
      have h1 : rollbackStagesManual (deployLoop cdName config hm appU cdDS cdB cont)
          = true := by
        rw [rollback_of_pairs _ cdF ?hpr]
        · exact hcd
        case hpr =>
          rw [stagePairs_deployLoop, ← hfst, stagePairs_buildLoop,
            stagePairs_ensureMaterial, stagePairs_foldl_ensureMaterial]
      have h2 : rollbackStagesManual (deployLoop cdName config hm appU mds
          ((commonMaterialsOf br (cont ++ manual)).foldl pipelineEnsureMaterial mp)
          manual) = true := by
        rw [rollback_of_pairs _ mp ?hpr2]
        · exact hmp
        case hpr2 =>
          rw [stagePairs_deployLoop, stagePairs_foldl_ensureMaterial]
      exact group_all_setPipeline _ _ _ (group_all_setPipeline _ _ _ hg h1) h2

theorem stages_setEnvVar (p : Pipeline) (k : String) (v : Option String) :
    (pipelineSetEnvVar p k v).stages = p.stages := by
  unfold pipelineSetEnvVar
  split <;> rfl

theorem stages_ensureEnvVars (p : Pipeline) (kvs : List (String × Option String)) :
    (pipelineEnsureEnvVars p kvs).stages = p.stages := by
  unfold pipelineEnsureEnvVars
  induction kvs generalizing p with
  | nil => rfl
  | cons kv kvs ih => rw [List.foldl_cons, ih, stages_setEnvVar]

theorem stages_setSecureVar (p : Pipeline) (k v : String) :
    (pipelineSetSecureVar p k v).stages = p.stages := by
  unfold pipelineSetSecureVar
  split <;> rfl

theorem stages_ensureSecureVars (p : Pipeline) (kvs : List (String × String)) :
    (pipelineEnsureSecureVars p kvs).stages = p.stages := by
  unfold pipelineEnsureSecureVars
  induction kvs generalizing p with
  | nil => rfl
  | cons kv kvs ih => rw [List.foldl_cons, ih, stages_setSecureVar]

theorem findStage_congr_stages (p q : Pipeline) (n : String) (h : p.stages = q.stages) :
    findStage p n = findStage q n := by
  unfold findStage
  rw [h]

theorem findStage_manual_preserved (p : Pipeline) (n m : String) (f : Stage → Stage)
    (hn : ∀ s, (f s).name = s.name) (hm : ∀ s, (f s).manualApproval = s.manualApproval)
    (h : (findStage p n).map Stage.manualApproval = some true) :
    (findStage (pipelineUpdateStage p m f) n).map Stage.manualApproval = some true := by
  by_cases hmn : m = n
  · subst hmn
    rw [findStage_update_self p m f hn]
    rcases hfind : findStage p m with _ | s
    · rw [hfind] at h
      simp at h
    · rw [hfind] at h
      simp only [Option.map_some'] at h ⊢
      rw [hm s]
      exact h
  · rw [findStage_update_ne p n m f hn hmn]
    exact h

theorem stageEnsureJob_name (s : Stage) (j : String) :
    (stageEnsureJob s j).name = s.name := by
  unfold stageEnsureJob
  split <;> rfl

theorem stageEnsureJob_manual (s : Stage) (j : String) :
    (stageEnsureJob s j).manualApproval = s.manualApproval := by
  unfold stageEnsureJob
  split <;> rfl

theorem stageUpdateJob_name (s : Stage) (j : String) (f : Job → Job) :
    (stageUpdateJob s j f).name = s.name := rfl

theorem stageUpdateJob_manual (s : Stage) (j : String) (f : Job → Job) :
    (stageUpdateJob s j f).manualApproval = s.manualApproval := rfl

theorem findStage_setManual_ne (p : Pipeline) (n m : String) (hmn : m ≠ n) :
    findStage (setStageManualApproval p m) n = findStage p n := by
  unfold setStageManualApproval
  exact findStage_update_ne p n m _ (fun s => rfl) hmn

theorem findStage_jobUpdateIn_manual (p : Pipeline) (n m jn : String) (f : Job → Job)
    (h : (findStage p n).map Stage.manualApproval = some true) :
    (findStage (jobUpdateIn p m jn f) n).map Stage.manualApproval = some true := by
  unfold jobUpdateIn
  exact findStage_manual_preserved p n m _ (fun s => rfl) (fun s => rfl) h

/-- C2: every rollback stage created by the builders requires manual
approval, whatever the caller-supplied flags: (1) the rollback-ASGs stage
of `_generate_deployment_stages` for any pipeline and migration flag, (2)
its rollback-migrations stage when migrations are enabled, (3) the stage
built by `stages.generate_rollback_asg_stage` for any arguments, and (4)
every rollback-named stage of every pipeline produced by
`generate_service_deployment_pipelines` into a fresh group. -/
theorem c2_rollback_stages_always_manual :
    (∀ (p : Pipeline) (hm : Bool),
      (findStage (generate_deployment_stages p hm).fst ROLLBACK_ASGS_STAGE_NAME).map
        Stage.manualApproval = some true)
    ∧ (∀ p : Pipeline,
      (findStage (generate_deployment_stages p true).fst
        ROLLBACK_MIGRATIONS_STAGE_NAME).map Stage.manualApproval = some true)
    ∧ (∀ (p : Pipeline) (a b c d e f : String) (loc : ArtifactLocation),
      (findStage (generate_rollback_asg_stage p a b c d e f loc)
        ROLLBACK_ASGS_STAGE_NAME).map Stage.manualApproval = some true)
    ∧ (∀ (pop : List String → String) (gname : String) (config : EDP → EnvConfig)
        (app : Material) (cont manual : List EDP) (br : Option String) (hm : Bool)
        (cdN mN appU : Option String),
      (generate_service_deployment_pipelines pop (emptyGroup gname) config app cont manual
        br hm cdN mN appU).group.pipelines.all rollbackStagesManual = true) := by
  have hne : ROLLBACK_MIGRATIONS_STAGE_NAME ≠ ROLLBACK_ASGS_STAGE_NAME := by decide
  have hf : ¬(false = true) := by decide
  refine ⟨?h1, ?h2, ?h3, ?h4⟩
  case h1 =>
    intro p hm
    unfold generate_deployment_stages
    cases hm
    · rw [if_neg hf]
      exact findStage_manual_after _ _
    · rw [if_pos rfl]
      dsimp only
      rw [findStage_setManual_ne _ _ _ hne, findStage_ensure_ne _ _ _ hne]
      exact findStage_manual_after _ _
  case h2 =>
    intro p
    unfold generate_deployment_stages
    rw [if_pos rfl]
    exact findStage_manual_after _ _
  case h3 =>
    intro p a b c d e f loc
    unfold generate_rollback_asg_stage
    apply findStage_jobUpdateIn_manual
    apply findStage_manual_preserved
    · intro s
      exact stageEnsureJob_name s _
    · intro s
      exact stageEnsureJob_manual s _
    · exact findStage_manual_after _ _
  case h4 =>
    intro pop gname config app cont manual br hm cdN mN appU
    rcases hp : pySet ((cont ++ manual).map EDP.play) with _ | ⟨p0, ptl⟩
    · simp only [generate_service_deployment_pipelines, hp]
      rfl
    · rcases hcd : resolveCdName pop cont cdN (pop (p0 :: ptl)) with e | cdName
      · simp only [generate_service_deployment_pipelines, hp, hcd]
        rfl
      · rcases manual with _ | ⟨m0, mtl⟩
        · simp only [generate_service_deployment_pipelines, hp, hcd]
          exact tail_all_rollback _ _ _ _ _ _ _ _ _ _ _ _ _ rfl
            (rollback_frameCd _ _ _) rfl
        · rcases hmn : resolveManualName pop (m0 :: mtl) mN (pop (p0 :: ptl)) with e | mName
          · simp only [generate_service_deployment_pipelines, hp, hcd, hmn]
            exact group_all_setPipeline _ _ _ rfl (rollback_frameCd _ _ _)
          · simp only [generate_service_deployment_pipelines, hp, hcd, hmn]
            refine tail_all_rollback _ _ _ _ _ _ _ _ _ _ _ _ _ rfl
              (rollback_frameCd _ _ _) ?hman
            case hman =>
              simp only [Option.all_some]
              exact rollback_frameManual _ _ _

/-- C3: calling `generate_service_deployment_pipelines` with no EDPs at all
raises the descriptive `ValueError` and leaves the pipeline group exactly
as it was — no pipeline is created or replaced before the raise. -/
theorem c3_empty_edps_fails_without_mutation (pop : List String → String)
    (pipeline_group : PipelineGroup) (config : EDP → EnvConfig) (app_material : Material)
    (configuration_branch : Option String) (has_migrations : Bool)
    (cd_pipeline_name manual_pipeline_name application_user : Option String) :
    generate_service_deployment_pipelines pop pipeline_group config app_material [] []
      configuration_branch has_migrations cd_pipeline_name manual_pipeline_name
      application_user
      = ⟨pipeline_group,
         some (PyErr.valueError
           "generate_service_deployment_pipelines needs at least one EDP to deploy"),
         none, none⟩ := by
  unfold generate_service_deployment_pipelines
  rfl

/-- C7: for every play, `generate_service_pipeline_group` replaces any
same-named pipeline group with a fresh empty one and grants exactly the
`{play}-admin` role the admin permission and the `{play}-operator` role
the operate and view permissions — no other roles. -/
theorem c7_pipeline_group_roles (configurator : Configurator) (play : String) :
    generate_service_pipeline_group configurator play =
      (⟨configurator.groups.filter (fun g => !(g.name == play)) ++
          [⟨play, [],
            [(Permission.ADMINS, [play ++ "-admin"]),
             (Permission.OPERATE, [play ++ "-operator"]),
             (Permission.VIEW, [play ++ "-operator"])]⟩]⟩,
       ⟨play, [],
        [(Permission.ADMINS, [play ++ "-admin"]),
         (Permission.OPERATE, [play ++ "-operator"]),
         (Permission.VIEW, [play ++ "-operator"])]⟩) := rfl

/-! ### Reasoning about the arbitrary `set.pop` -/

theorem resolveCdName_congr (pop1 pop2 : List String → String) (cont : List EDP)
    (cdN : Option String) (play : String)
    (h : pop1 (pySet (cont.map EDP.environment)) = pop2 (pySet (cont.map EDP.environment))) :
    resolveCdName pop1 cont cdN play = resolveCdName pop2 cont cdN play := by
  unfold resolveCdName
  cases cdN with
  | some n => rfl
  | none =>
    rcases hc : pySet (cont.map EDP.environment) with _ | ⟨c0, ctl⟩
    · rfl
    · rw [hc] at h
      simp only [h]

theorem resolveManualName_congr (pop1 pop2 : List String → String) (manual : List EDP)
    (mN : Option String) (play : String)
    (h : pop1 (pySet (manual.map EDP.environment))
      = pop2 (pySet (manual.map EDP.environment))) :
    resolveManualName pop1 manual mN play = resolveManualName pop2 manual mN play := by
  unfold resolveManualName
  cases mN with
  | some n => rfl
  | none =>
    dsimp only
    split
    · rfl
    · rw [h]

/-- `generate_service_deployment_pipelines` consults `pop` only on the play
set and the two environment sets, so two pop functions agreeing there give
equal results. -/
theorem gen_pop_congr (pop1 pop2 : List String → String) (g : PipelineGroup)
    (config : EDP → EnvConfig) (app : Material) (cont manual : List EDP)
    (br : Option String) (hm : Bool) (cdN mN appU : Option String)
    (hplays : pop1 (pySet ((cont ++ manual).map EDP.play))
      = pop2 (pySet ((cont ++ manual).map EDP.play)))
    (hcd : pop1 (pySet (cont.map EDP.environment))
      = pop2 (pySet (cont.map EDP.environment)))
    (hman : pop1 (pySet (manual.map EDP.environment))
      = pop2 (pySet (manual.map EDP.environment))) :
    generate_service_deployment_pipelines pop1 g config app cont manual br hm cdN mN appU
      = generate_service_deployment_pipelines pop2 g config app cont manual br hm cdN
        mN appU := by
  unfold generate_service_deployment_pipelines
  rcases hp : pySet ((cont ++ manual).map EDP.play) with _ | ⟨p0, ptl⟩
  · simp only [hp]
  · rw [hp] at hplays
    simp only [hp, hplays, resolveCdName_congr pop1 pop2 cont cdN (pop2 (p0 :: ptl)) hcd]
    rcases hr : resolveCdName pop2 cont cdN (pop2 (p0 :: ptl)) with e | cdName
    · rfl
    · rcases manual with _ | ⟨m0, mtl⟩
      · rfl
      · rw [resolveManualName_congr pop1 pop2 (m0 :: mtl) mN (pop2 (p0 :: ptl)) hman]

/-- Closed pop table for the McKinsey scenario: the play set maps to the
given play, the singleton environment sets to their elements. -/
def popC1 (pl : String) : List String → String :=
  fun l =>
    if l == ["apros", "edxapp"] then pl
    else if l == ["stage"] then "stage"
    else if l == ["prod"] then "prod"
    else ""

set_option maxHeartbeats 1000000 in
/-- C1: on the McKinsey input — continuous EDPs {(stage, mckinsey, apros),
(stage, mckinsey, edxapp)}, manual EDPs {(prod, mckinsey, apros),
(prod, mckinsey, edxapp)} — the builder succeeds and produces exactly two
pipelines named `stage-{play}` and `prod-{play}` (the play being whichever
element `set.pop` returns from the two-element play set); the manual
pipeline's only pipeline-level material references the continuous
pipeline's build-AMI stage, and its label template shares the continuous
pipeline's label by referencing that pipeline by name. -/
theorem c1_mckinsey_pipelines (pop : List String → String)
    (hpop : ∀ l : List String, l ≠ [] → pop l ∈ l) (config : EDP → EnvConfig) :
    ∃ pl, pl ∈ (["apros", "edxapp"] : List String) ∧
      (let r := generate_service_deployment_pipelines pop (emptyGroup "apros") config
        EDX_APROS [STAGE_MCKA_APROS, STAGE_MCKA_EDXAPP] [PROD_MCKA_APROS, PROD_MCKA_EDXAPP]
        none true none none none
       r.error = none ∧
       r.group.pipelines.map (fun p =>
           (p.name, p.labelTemplate, p.materials.filter Material.isPipelineMaterial))
         = [("stage-" ++ pl, some (DEPLOYMENT_PIPELINE_LABEL_TPL EDX_APROS), []),
            ("prod-" ++ pl, some ("$\x7b" ++ ("stage-" ++ pl) ++ "\x7d"),
             [Material.pipelineMat ("stage-" ++ pl) BUILD_AMI_STAGE_NAME
               ("stage-" ++ pl)])]) := by
  have h2 : pop ["stage"] = "stage" := by
    have h := hpop ["stage"] (by simp)
    simpa using h
  have h3 : pop ["prod"] = "prod" := by
    have h := hpop ["prod"] (by simp)
    simpa using h
  have hm : pop ["apros", "edxapp"] ∈ (["apros", "edxapp"] : List String) :=
    hpop _ (by simp)
  have hcongr := gen_pop_congr pop (popC1 (pop ["apros", "edxapp"]))
    (emptyGroup "apros") config EDX_APROS [STAGE_MCKA_APROS, STAGE_MCKA_EDXAPP]
    [PROD_MCKA_APROS, PROD_MCKA_EDXAPP] none true none none none rfl h2 h3
  rw [List.mem_cons, List.mem_singleton] at hm
  rcases hm with h1 | h1
  · refine ⟨"apros", by simp, ?_⟩
    rw [hcongr, h1]
    exact ⟨rfl, rfl⟩
  · refine ⟨"edxapp", by simp, ?_⟩
    rw [hcongr, h1]
    exact ⟨rfl, rfl⟩

/-! ### The no-migrations invariant (C5) -/

/-- The artifact location is not the migration output directory. -/
def locMigFree (al : ArtifactLocation) : Bool :=
  !(al.file_name == MIGRATION_OUTPUT_DIR_NAME) && !al.is_dir

/-- The job call is not a rollback-migrations call and references no
migration-output artifact location. -/
def jobCallMigFree : JobCall → Bool
  | JobCall.buildAmi _ _ _ _ _ _ _ _ => true
  | JobCall.deployAmi ami _ _ _ _ _ => locMigFree ami
  | JobCall.rollbackAsgs _ depl _ => locMigFree depl
  | JobCall.rollbackMigrations _ _ _ _ _ _ _ _ _ => false

/-- The stage is not a rollback-migrations stage and its recorded job
calls are all migration-free. -/
def stageMigFree (s : Stage) : Bool :=
  !(s.name == ROLLBACK_MIGRATIONS_STAGE_NAME) && s.jobCalls.all jobCallMigFree

/-- No stage of the pipeline is a rollback-migrations stage and no job
wiring references a migration-output artifact location. -/
def pipelineMigFree (p : Pipeline) : Bool :=
  p.stages.all stageMigFree

theorem stages_ensureMaterial (p : Pipeline) (m : Material) :
    (pipelineEnsureMaterial p m).stages = p.stages := by
  unfold pipelineEnsureMaterial
  split <;> rfl

theorem stages_foldl_ensureMaterial (ms : List Material) (p : Pipeline) :
    (ms.foldl pipelineEnsureMaterial p).stages = p.stages := by
  induction ms generalizing p with
  | nil => rfl
  | cons m ms ih => rw [List.foldl_cons, ih, stages_ensureMaterial]

theorem pipelineMigFree_congr_stages (p q : Pipeline) (h : p.stages = q.stages) :
    pipelineMigFree p = pipelineMigFree q := by
  unfold pipelineMigFree
  rw [h]

theorem migFree_update (p : Pipeline) (n : String) (f : Stage → Stage)
    (hf : ∀ s, stageMigFree s = true → stageMigFree (f s) = true)
    (h : pipelineMigFree p = true) :
    pipelineMigFree (pipelineUpdateStage p n f) = true := by
  unfold pipelineMigFree at h ⊢
  unfold pipelineUpdateStage
  rw [List.all_eq_true] at h ⊢
  intro x hx
  rcases List.mem_map.mp hx with ⟨s, hs, rfl⟩
  by_cases hn : (s.name == n) = true
  · rw [if_pos hn]
    exact hf s (h s hs)
  · rw [if_neg hn]
    exact h s hs

theorem migFree_addJobCall (p : Pipeline) (n : String) (jc : JobCall)
    (hjc : jobCallMigFree jc = true) (h : pipelineMigFree p = true) :
    pipelineMigFree (pipelineAddJobCall p n jc) = true := by
  unfold pipelineAddJobCall
  apply migFree_update p n _ _ h
  intro s hs
  unfold stageMigFree at hs ⊢
  rw [Bool.and_eq_true] at hs ⊢
  refine ⟨hs.1, ?_⟩
  rw [List.all_append, hs.2]
  simp [hjc]

theorem all_foldl_of {β : Type} (Q : Pipeline → Bool) (g : Pipeline → β → Pipeline)
    (h : ∀ p b, Q p = true → Q (g p b) = true) (l : List β) (p : Pipeline)
    (hp : Q p = true) : Q (l.foldl g p) = true := by
  induction l generalizing p with
  | nil => exact hp
  | cons b bs ih => exact ih _ (h p b hp)

theorem migFree_buildLoop (config : EDP → EnvConfig) (app_material : Material)
    (play : String) (br : Option String) (cm : Material) (cd : Pipeline)
    (l : List (String × List EDP)) (h : pipelineMigFree cd = true) :
    pipelineMigFree (buildLoop config app_material play br cm cd l).fst = true := by
  induction l generalizing cd with
  | nil => exact h
  | cons pr rest ih =>
    rcases pr with ⟨ed, edps⟩
    rcases edps with _ | ⟨e0, edps2⟩
    · exact h
    · rcases edps2 with _ | ⟨e1, tl⟩
      · exact h
      · rw [buildLoop]
        exact ih _ (migFree_addJobCall _ _ _ rfl h)

theorem migFree_deploySubApp (cdName : String) (config : EDP → EnvConfig)
    (appU : Option String) (ds : DeploymentStages) (pname : String) (edp : EDP)
    (q : Pipeline) (sub_app : String) (h : pipelineMigFree q = true) :
    pipelineMigFree (deploySubApp cdName config false appU ds pname edp q sub_app)
      = true := by
  unfold deploySubApp
  simp only [Bool.false_eq_true, if_false]
  exact migFree_addJobCall _ _ _ rfl (migFree_addJobCall _ _ _ rfl h)

theorem migFree_deployLoop (cdName : String) (config : EDP → EnvConfig)
    (appU : Option String) (ds : DeploymentStages) (p : Pipeline) (edps : List EDP)
    (h : pipelineMigFree p = true) :
    pipelineMigFree (deployLoop cdName config false appU ds p edps) = true := by
  unfold deployLoop
  apply all_foldl_of _ _ _ _ _ h
  intro p2 edp hp2
  unfold deployLoopEdp
  apply all_foldl_of _ _ _ _ _ hp2
  intro q sub hq
  exact migFree_deploySubApp cdName config appU ds p2.name edp q sub hq

theorem migFree_frameCd (a : Material) (n : String) :
    pipelineMigFree (frameCdPipeline a n false).fst = true := by rfl

theorem migFree_frameManual (cdName mName : String) :
    pipelineMigFree (frameManualPipeline cdName mName false).fst = true := by rfl

theorem tail_all_migFree (grp : PipelineGroup) (config : EDP → EnvConfig)
    (app_material : Material) (cont manual : List EDP) (br : Option String)
    (appU : Option String) (play cdName : String) (cdF : Pipeline) (cdDS : DeploymentStages)
    (mOpt : Option (Pipeline × DeploymentStages))
    (hg : grp.pipelines.all pipelineMigFree = true)
    (hcd : pipelineMigFree cdF = true)
    (hman : mOpt.all (fun pr => pipelineMigFree pr.fst) = true) :
    (generateServiceDeploymentPipelinesTail grp config app_material cont manual br false
      appU play cdName cdF cdDS mOpt).group.pipelines.all pipelineMigFree = true := by
  have hcdM : pipelineMigFree (pipelineEnsureMaterial
      ((commonMaterialsOf br (cont ++ manual)).foldl pipelineEnsureMaterial cdF)
      app_material) = true := by
    rw [pipelineMigFree_congr_stages _ cdF (by
      rw [stages_ensureMaterial, stages_foldl_ensureMaterial])]
    exact hcd
  rcases mOpt with _ | ⟨mp, mds⟩
  · simp only [generateServiceDeploymentPipelinesTail, Option.map_none']
    split
    next cdB e heq =>
      have hfst := congrArg Prod.fst heq
      dsimp only at hfst
      have h1 : pipelineMigFree cdB = true := by
        rw [← hfst]
        exact migFree_buildLoop _ _ _ _ _ _ _ hcdM
      exact group_all_setPipeline _ _ _ hg h1
    next cdB heq =>
      have hfst := congrArg Prod.fst heq
      dsimp only at hfst
      have h1 : pipelineMigFree (deployLoop cdName config false appU cdDS cdB cont)
          = true := by
        apply migFree_deployLoop
        rw [← hfst]
        exact migFree_buildLoop _ _ _ _ _ _ _ hcdM
      exact group_all_setPipeline _ _ _ hg h1
  · have hmp : pipelineMigFree mp = true := by simpa using hman
    have hmp2 : pipelineMigFree ((commonMaterialsOf br (cont ++ manual)).foldl
        pipelineEnsureMaterial mp) = true := by
      rw [pipelineMigFree_congr_stages _ mp (stages_foldl_ensureMaterial _ _)]
      exact hmp
    simp only [generateServiceDeploymentPipelinesTail, Option.map_some']
    split
    next cdB e heq =>
      have hfst := congrArg Prod.fst heq
      dsimp only at hfst
      have h1 : pipelineMigFree cdB = true := by
        rw [← hfst]
        exact migFree_buildLoop _ _ _ _ _ _ _ hcdM
      exact group_all_setPipeline _ _ _ (group_all_setPipeline _ _ _ hg h1) hmp2
    next cdB heq =>
      have hfst := congrArg Prod.fst heq
      dsimp only at hfst
      have h1 : pipelineMigFree (deployLoop cdName config false appU cdDS cdB cont)
          = true := by
        apply migFree_deployLoop
        rw [← hfst]
        exact migFree_buildLoop _ _ _ _ _ _ _ hcdM
      have h2 : pipelineMigFree (deployLoop cdName config false appU mds
          ((commonMaterialsOf br (cont ++ manual)).foldl pipelineEnsureMaterial mp)
          manual) = true := migFree_deployLoop _ _ _ _ _ _ hmp2
      exact group_all_setPipeline _ _ _ (group_all_setPipeline _ _ _ hg h1) h2

theorem tail_cd_ds (grp : PipelineGroup) (config : EDP → EnvConfig)
    (app_material : Material) (cont manual : List EDP) (br : Option String) (hm : Bool)
    (appU : Option String) (play cdName : String) (cdF : Pipeline) (cdDS : DeploymentStages)
    (mOpt : Option (Pipeline × DeploymentStages)) :
    (generateServiceDeploymentPipelinesTail grp config app_material cont manual br hm appU
      play cdName cdF cdDS mOpt).cd_deploy_stages = some cdDS := by
  unfold generateServiceDeploymentPipelinesTail
  dsimp only
  split <;> rfl

theorem tail_manual_ds (grp : PipelineGroup) (config : EDP → EnvConfig)
    (app_material : Material) (cont manual : List EDP) (br : Option String) (hm : Bool)
    (appU : Option String) (play cdName : String) (cdF : Pipeline) (cdDS : DeploymentStages)
    (mOpt : Option (Pipeline × DeploymentStages)) :
    (generateServiceDeploymentPipelinesTail grp config app_material cont manual br hm appU
      play cdName cdF cdDS mOpt).manual_deploy_stages = mOpt.map Prod.snd := by
  unfold generateServiceDeploymentPipelinesTail
  dsimp only
  rcases mOpt with _ | ⟨mp, mds⟩ <;> simp only [Option.map_none', Option.map_some'] <;>
    split <;> rfl

/-- C5: with `has_migrations = False`, the builder creates no
rollback-migrations stage in either pipeline (both `DeploymentStages`
bundles carry `None`), and no migration-output-directory artifact location
appears anywhere in the recorded deploy job wiring. -/
theorem c5_no_migrations_means_no_rollback_migrations (pop : List String → String)
    (gname : String) (config : EDP → EnvConfig) (app : Material) (cont manual : List EDP)
    (br : Option String) (cdN mN appU : Option String) :
    (let r := generate_service_deployment_pipelines pop (emptyGroup gname) config app cont
      manual br false cdN mN appU
     r.cd_deploy_stages.all (fun ds => ds.rollback_migrations.isNone) = true ∧
     r.manual_deploy_stages.all (fun ds => ds.rollback_migrations.isNone) = true ∧
     r.group.pipelines.all pipelineMigFree = true) := by
  rcases hp : pySet ((cont ++ manual).map EDP.play) with _ | ⟨p0, ptl⟩
  · simp only [generate_service_deployment_pipelines, hp]
    exact ⟨rfl, rfl, rfl⟩
  · rcases hcd : resolveCdName pop cont cdN (pop (p0 :: ptl)) with e | cdName
    · simp only [generate_service_deployment_pipelines, hp, hcd]
      exact ⟨rfl, rfl, rfl⟩
    · rcases manual with _ | ⟨m0, mtl⟩
      · simp only [generate_service_deployment_pipelines, hp, hcd]
        refine ⟨?_, ?_, ?_⟩
        · rw [tail_cd_ds]
          rfl
        · rw [tail_manual_ds]
          rfl
        · exact tail_all_migFree _ _ _ _ _ _ _ _ _ _ _ _ rfl
            (migFree_frameCd _ _) rfl
      · rcases hmn : resolveManualName pop (m0 :: mtl) mN (pop (p0 :: ptl)) with e | mName
        · simp only [generate_service_deployment_pipelines, hp, hcd, hmn]
          exact ⟨rfl, rfl,
            group_all_setPipeline _ _ _ rfl (migFree_frameCd _ _)⟩
        · simp only [generate_service_deployment_pipelines, hp, hcd, hmn]
          refine ⟨?_, ?_, ?_⟩
          · rw [tail_cd_ds]
            rfl
          · rw [tail_manual_ds]
            rfl
          · refine tail_all_migFree _ _ _ _ _ _ _ _ _ _ _ _ rfl
              (migFree_frameCd _ _) ?hman
            case hman =>
              simp only [Option.all_some]
              exact migFree_frameManual _ _

/-- Pop function returning the first element: a valid model of `set.pop`. -/
def popHead : List String → String := fun l => l.headD ""

theorem popHead_mem (l : List String) (h : l ≠ []) : popHead l ∈ l := by
  cases l with
  | nil => exact absurd rfl h
  | cons a as => simp [popHead]

/-- Witness for C1 at the concrete pop function and configuration. -/
theorem c1_mckinsey_pipelines_witness :
    ∃ pl, pl ∈ (["apros", "edxapp"] : List String) ∧
      (let r := generate_service_deployment_pipelines popHead (emptyGroup "apros")
        (fun _ => EnvConfig.mk "") EDX_APROS
        [STAGE_MCKA_APROS, STAGE_MCKA_EDXAPP] [PROD_MCKA_APROS, PROD_MCKA_EDXAPP]
        none true none none none
       r.error = none ∧
       r.group.pipelines.map (fun p =>
           (p.name, p.labelTemplate, p.materials.filter Material.isPipelineMaterial))
         = [("stage-" ++ pl, some (DEPLOYMENT_PIPELINE_LABEL_TPL EDX_APROS), []),
            ("prod-" ++ pl, some ("$\x7b" ++ ("stage-" ++ pl) ++ "\x7d"),
             [Material.pipelineMat ("stage-" ++ pl) BUILD_AMI_STAGE_NAME
               ("stage-" ++ pl)])]) :=
  c1_mckinsey_pipelines popHead popHead_mem (fun _ => EnvConfig.mk "")

/-! ### Lemmas for the deploy-AMI stage builder (C8) -/

theorem findStage_jobUpdateIn_self (p : Pipeline) (n jn : String) (f : Job → Job) :
    findStage (jobUpdateIn p n jn f) n = (findStage p n).map (fun s => stageUpdateJob s jn f) := by
  unfold jobUpdateIn
  exact findStage_update_self p n _ (fun s => rfl)

theorem findStage_ensureJobIn_self (p : Pipeline) (n jn : String) :
    findStage (pipelineUpdateStage p n (fun s => stageEnsureJob s jn)) n
      = (findStage p n).map (fun s => stageEnsureJob s jn) :=
  findStage_update_self p n _ (fun s => stageEnsureJob_name s jn)

theorem findStage_setManual_self (p : Pipeline) (n : String) :
    findStage (setStageManualApproval p n) n
      = (findStage p n).map (fun s => { s with manualApproval := true }) := by
  unfold setStageManualApproval
  exact findStage_update_self p n _ (fun s => rfl)

theorem envKey_after_set (p : Pipeline) (k : String) (v : Option String) :
    (pipelineSetEnvVar p k v).envVars.any (fun kv => kv.fst == k) = true := by
  unfold pipelineSetEnvVar
  split
  next h =>
    rcases List.any_eq_true.mp h with ⟨kv, hkv, hk⟩
    apply List.any_eq_true.mpr
    refine ⟨(k, v), List.mem_map.mpr ⟨kv, hkv, ?_⟩, by simp⟩
    rw [if_pos hk]
  next =>
    apply List.any_eq_true.mpr
    exact ⟨(k, v), by simp, by simp⟩

theorem envVars_jobUpdateIn (p : Pipeline) (n jn : String) (f : Job → Job) :
    (jobUpdateIn p n jn f).envVars = p.envVars := rfl

/-- C8: `stages.generate_deploy_ami` (on a pipeline without a pre-existing
deploy stage) always declares the deployment-output file as a build
artifact of the deploy job; with an upstream AMI artifact it adds exactly
one fetch-artifact task and passes `--config-file <file>` to the
deployment script, and with no upstream artifact it instead ensures an
`AMI_ID` pipeline environment variable and passes `--ami_id $AMI_ID`;
the two task lists show that exactly one of the two wirings occurs. -/
theorem c8_generate_deploy_ami_wiring (pipeline : Pipeline) (a b c d : String)
    (upstream : Option ArtifactLocation) (manual_approval : Bool)
    (hfresh : findStage pipeline DEPLOY_AMI_STAGE_NAME = none) :
    (let r := generate_deploy_ami pipeline a b c d upstream manual_approval
     match upstream with
     | some art =>
       findStage r DEPLOY_AMI_STAGE_NAME = some
         ⟨DEPLOY_AMI_STAGE_NAME, manual_approval,
          [⟨DEPLOY_AMI_JOB_NAME,
            [GoTask.requirementsInstall "tubular",
             GoTask.fetchArtifactFile art.pipeline art.stage art.job art.file_name
               "tubular",
             GoTask.exec ["/bin/bash", "-c", "mkdir -p ../" ++ ARTIFACT_PATH]
               (some "tubular") "passed",
             GoTask.exec ["/usr/bin/python", "scripts/asgard-deploy.py", "--out_file",
               "../" ++ (ARTIFACT_PATH ++ "/" ++ DEPLOY_AMI_OUT_FILENAME),
               "--config-file", art.file_name] (some "tubular") "passed"],
            [ARTIFACT_PATH ++ "/" ++ DEPLOY_AMI_OUT_FILENAME]⟩], []⟩
     | none =>
       findStage r DEPLOY_AMI_STAGE_NAME = some
         ⟨DEPLOY_AMI_STAGE_NAME, manual_approval,
          [⟨DEPLOY_AMI_JOB_NAME,
            [GoTask.requirementsInstall "tubular",
             GoTask.exec ["/bin/bash", "-c", "mkdir -p ../" ++ ARTIFACT_PATH]
               (some "tubular") "passed",
             GoTask.exec ["/usr/bin/python", "scripts/asgard-deploy.py", "--out_file",
               "../" ++ (ARTIFACT_PATH ++ "/" ++ DEPLOY_AMI_OUT_FILENAME),
               "--ami_id", "$AMI_ID"] (some "tubular") "passed"],
            [ARTIFACT_PATH ++ "/" ++ DEPLOY_AMI_OUT_FILENAME]⟩], []⟩
       ∧ r.envVars.any (fun kv => kv.fst == "AMI_ID") = true) := by
  have hnone2 : findStage (pipelineEnsureSecureVars (pipelineEnsureEnvVars pipeline
      [("ASGARD_API_ENDPOINTS", some a), ("WAIT_SLEEP_TIME", some TUBULAR_SLEEP_WAIT_TIME)])
      [("ASGARD_API_TOKEN", b), ("AWS_ACCESS_KEY_ID", c), ("AWS_SECRET_ACCESS_KEY", d)])
      DEPLOY_AMI_STAGE_NAME = none := by
    rw [findStage_congr_stages _ pipeline _
      (by rw [stages_ensureSecureVars, stages_ensureEnvVars])]
    exact hfresh
  have h3 := findStage_ensure_of_none _ DEPLOY_AMI_STAGE_NAME hnone2
  rcases upstream with _ | art
  · unfold generate_deploy_ami deployAmiFinish
    dsimp only
    constructor
    · cases manual_approval
      · rw [if_neg (by decide : ¬(false = true))]
        rw [findStage_jobUpdateIn_self, findStage_jobUpdateIn_self,
          findStage_congr_stages _ _ _ (stages_ensureEnvVars _ _),
          findStage_jobUpdateIn_self, findStage_jobUpdateIn_self,
          findStage_ensureJobIn_self, h3]
        rfl
      · rw [if_pos rfl]
        rw [findStage_jobUpdateIn_self, findStage_jobUpdateIn_self,
          findStage_congr_stages _ _ _ (stages_ensureEnvVars _ _),
          findStage_jobUpdateIn_self, findStage_jobUpdateIn_self,
          findStage_ensureJobIn_self, findStage_setManual_self, h3]
        rfl
    · rw [envVars_jobUpdateIn, envVars_jobUpdateIn]
      exact envKey_after_set _ _ _
  · unfold generate_deploy_ami deployAmiFinish
    dsimp only
    cases manual_approval
    · rw [if_neg (by decide : ¬(false = true))]
      rw [findStage_jobUpdateIn_self, findStage_jobUpdateIn_self,
        findStage_jobUpdateIn_self, findStage_jobUpdateIn_self,
        findStage_jobUpdateIn_self, findStage_ensureJobIn_self, h3]
      rfl
    · rw [if_pos rfl]
      rw [findStage_jobUpdateIn_self, findStage_jobUpdateIn_self,
        findStage_jobUpdateIn_self, findStage_jobUpdateIn_self,
        findStage_jobUpdateIn_self, findStage_ensureJobIn_self,
        findStage_setManual_self, h3]
      rfl

/-- Witness for C8 at a fresh pipeline with an upstream AMI artifact. -/
theorem c8_generate_deploy_ami_wiring_witness :
    findStage (generate_deploy_ami (emptyPipeline "p") "asg" "tok" "key" "secret"
        (some ⟨"up", "st", "jb", "conf.yml", false⟩) true) DEPLOY_AMI_STAGE_NAME = some
      ⟨DEPLOY_AMI_STAGE_NAME, true,
       [⟨DEPLOY_AMI_JOB_NAME,
         [GoTask.requirementsInstall "tubular",
          GoTask.fetchArtifactFile "up" "st" "jb" "conf.yml" "tubular",
          GoTask.exec ["/bin/bash", "-c", "mkdir -p ../" ++ ARTIFACT_PATH]
            (some "tubular") "passed",
          GoTask.exec ["/usr/bin/python", "scripts/asgard-deploy.py", "--out_file",
            "../" ++ (ARTIFACT_PATH ++ "/" ++ DEPLOY_AMI_OUT_FILENAME),
            "--config-file", "conf.yml"] (some "tubular") "passed"],
         [ARTIFACT_PATH ++ "/" ++ DEPLOY_AMI_OUT_FILENAME]⟩], []⟩ :=
  c8_generate_deploy_ami_wiring (emptyPipeline "p") "asg" "tok" "key" "secret"
    (some ⟨"up", "st", "jb", "conf.yml", false⟩) true rfl

/-! ### Full error characterization (C4, C9, C10) -/

theorem pySet_eq_nil_iff {α : Type} [BEq α] (l : List α) : pySet l = [] ↔ l = [] := by
  cases l with
  | nil => simp [pySet, pySetAux]
  | cons a as => simp [pySet, pySetAux]

theorem buildLoop_snd (config : EDP → EnvConfig) (app_material : Material) (play : String)
    (br : Option String) (cm : Material) (cd : Pipeline) (l : List (String × List EDP)) :
    (buildLoop config app_material play br cm cd l).snd
      = if l.any (fun pr => decide (pr.snd.length < 2)) then some PyErr.indexError
        else none := by
  induction l generalizing cd with
  | nil => rfl
  | cons pr rest ih =>
    rcases pr with ⟨ed, edps⟩
    rcases edps with _ | ⟨e0, edps2⟩
    · simp [buildLoop, List.any_cons]
    · rcases edps2 with _ | ⟨e1, tl⟩
      · simp [buildLoop, List.any_cons]
      · rw [buildLoop, ih]
        have hfalse : decide (((e0 :: e1 :: tl) : List EDP).length < 2) = false := by
          simp only [decide_eq_false_iff_not, List.length_cons]
          omega
        rw [List.any_cons]
        dsimp only
        rw [hfalse, Bool.false_or]

theorem tail_error (grp : PipelineGroup) (config : EDP → EnvConfig)
    (app_material : Material) (cont manual : List EDP) (br : Option String) (hm : Bool)
    (appU : Option String) (play cdName : String) (cdF : Pipeline) (cdDS : DeploymentStages)
    (mOpt : Option (Pipeline × DeploymentStages)) :
    (generateServiceDeploymentPipelinesTail grp config app_material cont manual br hm appU
      play cdName cdF cdDS mOpt).error
      = (buildLoop config app_material play br (CONFIGURATION br)
          (pipelineEnsureMaterial
            ((commonMaterialsOf br (cont ++ manual)).foldl pipelineEnsureMaterial cdF)
            app_material)
          (groupByEnv (cont ++ manual))).snd := by
  unfold generateServiceDeploymentPipelinesTail
  dsimp only
  split
  next cdB e heq => rw [heq]
  next cdB heq => rw [heq]

/-- The raise behaviour of `generate_service_deployment_pipelines` as
stated by the amended claim: the empty-EDP `ValueError`; else the
`KeyError` from popping the empty continuous-environment set when no
explicit continuous pipeline name is given; else the
ambiguous-manual-environment `ValueError`; else the `IndexError` from
`(ed_dict[ed])[1]` when some environment groups fewer than two EDPs; else
no error.  This is the spec-side comparison definition for the error
claims, written from the amended claim's words. -/
def expectedErrorSpec (cont manual : List EDP) (cdN mN : Option String) : Option PyErr :=
  if (cont ++ manual).isEmpty then
    some (PyErr.valueError
      "generate_service_deployment_pipelines needs at least one EDP to deploy")
  else if cdN.isNone && cont.isEmpty then
    some PyErr.keyError
  else if (!manual.isEmpty) && mN.isNone
      && decide (1 < (pySet (manual.map EDP.environment)).length) then
    some (PyErr.valueError
      "Only one environment is allowed in manual_deployment_edps if no manual_pipeline_name is specified")
  else if (groupByEnv (cont ++ manual)).any (fun pr => decide (pr.snd.length < 2)) then
    some PyErr.indexError
  else
    none

theorem gen_error_characterization (pop : List String → String) (g : PipelineGroup)
    (config : EDP → EnvConfig) (app : Material) (cont manual : List EDP)
    (br : Option String) (hm : Bool) (cdN mN appU : Option String) :
    (generate_service_deployment_pipelines pop g config app cont manual br hm cdN mN
      appU).error = expectedErrorSpec cont manual cdN mN := by
  rcases hp : pySet ((cont ++ manual).map EDP.play) with _ | ⟨p0, ptl⟩
  · have he : cont ++ manual = [] := by
      have h1 := (pySet_eq_nil_iff _).mp hp
      exact List.map_eq_nil_iff.mp h1
    simp [generate_service_deployment_pipelines, hp, expectedErrorSpec, he, pySet, pySetAux]
  · have hne : (cont ++ manual).isEmpty = false := by
      rcases hh : cont ++ manual with _ | ⟨x, xs⟩
      · rw [hh] at hp
        simp [pySet, pySetAux] at hp
      · rfl
    rcases hc : resolveCdName pop cont cdN (pop (p0 :: ptl)) with e | cdName
    · have hkey : e = PyErr.keyError ∧ cdN = none ∧ cont = [] := by
        unfold resolveCdName at hc
        cases cdN with
        | some n => exact absurd hc (by simp)
        | none =>
          rcases hcc : pySet (cont.map EDP.environment) with _ | ⟨c0, ctl⟩
          · rw [hcc] at hc
            have hc2 : cont = [] :=
              List.map_eq_nil_iff.mp ((pySet_eq_nil_iff _).mp hcc)
            simp only [Except.error.injEq] at hc
            exact ⟨hc.symm, rfl, hc2⟩
          · rw [hcc] at hc
            exact absurd hc (by simp)
      rcases hkey with ⟨rfl, rfl, rfl⟩
      simp only [generate_service_deployment_pipelines, hp, hc]
      unfold expectedErrorSpec
      have pf1 : ¬((([] : List EDP) ++ manual).isEmpty = true) := by
        rw [hne]
        decide
      have pf2 : ((none : Option String).isNone
          && (([] : List EDP)).isEmpty) = true := rfl
      rw [if_neg pf1, if_pos pf2]
    · have hcdfalse : (cdN.isNone && cont.isEmpty) = false := by
        unfold resolveCdName at hc
        cases cdN with
        | some n => simp
        | none =>
          rcases hcc : pySet (cont.map EDP.environment) with _ | ⟨c0, ctl⟩
          · rw [hcc] at hc
            exact absurd hc (by simp)
          · have : cont ≠ [] := by
              intro hcnil
              rw [hcnil] at hcc
              simp [pySet, pySetAux] at hcc
            rcases hcont : cont with _ | ⟨x, xs⟩
            · exact absurd hcont this
            · simp
      rcases manual with _ | ⟨m0, mtl⟩
      · simp only [generate_service_deployment_pipelines, hp, hc]
        rw [tail_error, buildLoop_snd]
        unfold expectedErrorSpec
        have pf1 : ¬((cont ++ ([] : List EDP)).isEmpty = true) := by
          rw [hne]
          decide
        have pf2 : ¬((cdN.isNone && cont.isEmpty) = true) := by
          rw [hcdfalse]
          decide
        have pf3 : ¬(((!(([] : List EDP)).isEmpty) && mN.isNone
            && decide (1 < (pySet ((([] : List EDP)).map EDP.environment)).length))
            = true) := fun hh => Bool.false_ne_true hh
        rw [if_neg pf1, if_neg pf2, if_neg pf3]
      · rcases hmn : resolveManualName pop (m0 :: mtl) mN (pop (p0 :: ptl)) with e | mName
        · have hman : e = PyErr.valueError
              "Only one environment is allowed in manual_deployment_edps if no manual_pipeline_name is specified"
              ∧ mN = none
              ∧ 1 < (pySet ((m0 :: mtl).map EDP.environment)).length := by
            unfold resolveManualName at hmn
            cases mN with
            | some n => exact absurd hmn (by simp)
            | none =>
              dsimp only at hmn
              by_cases hlen : (pySet ((m0 :: mtl).map EDP.environment)).length > 1
              · rw [if_pos hlen] at hmn
                simp only [Except.error.injEq] at hmn
                exact ⟨hmn.symm, rfl, hlen⟩
              · rw [if_neg hlen] at hmn
                exact absurd hmn (by simp)
          rcases hman with ⟨rfl, rfl, hlen⟩
          simp only [generate_service_deployment_pipelines, hp, hc, hmn]
          unfold expectedErrorSpec
          have pf1 : ¬((cont ++ (m0 :: mtl)).isEmpty = true) := by
            rw [hne]
            decide
          have pf2 : ¬((cdN.isNone && cont.isEmpty) = true) := by
            rw [hcdfalse]
            decide
          have pf3 : ((!((m0 :: mtl) : List EDP).isEmpty)
              && (none : Option String).isNone
              && decide (1 < (pySet (((m0 :: mtl) : List EDP).map
                EDP.environment)).length)) = true := decide_eq_true hlen
          rw [if_neg pf1, if_neg pf2, if_pos pf3]
        · have hmanfalse : ((!(m0 :: mtl).isEmpty) && mN.isNone
              && decide (1 < (pySet ((m0 :: mtl).map EDP.environment)).length)) = false := by
            unfold resolveManualName at hmn
            cases mN with
            | some n => simp
            | none =>
              dsimp only at hmn
              by_cases hlen : 1 < (pySet ((m0 :: mtl).map EDP.environment)).length
              · rw [if_pos hlen] at hmn
                exact absurd hmn (by simp)
              · have hd : decide (1 < (pySet ((m0 :: mtl).map EDP.environment)).length)
                    = false := decide_eq_false hlen
                rw [hd, Bool.and_false]
          simp only [generate_service_deployment_pipelines, hp, hc, hmn]
          rw [tail_error, buildLoop_snd]
          unfold expectedErrorSpec
          have pf1 : ¬((cont ++ (m0 :: mtl)).isEmpty = true) := by
            rw [hne]
            decide
          have pf2 : ¬((cdN.isNone && cont.isEmpty) = true) := by
            rw [hcdfalse]
            decide
          have pf3 : ¬(((!((m0 :: mtl) : List EDP).isEmpty) && mN.isNone
              && decide (1 < (pySet (((m0 :: mtl) : List EDP).map
                EDP.environment)).length)) = true) := by
            rw [hmanfalse]
            decide
          rw [if_neg pf1, if_neg pf2, if_neg pf3]

theorem frameCd_snd (a : Material) (n : String) (hm : Bool) :
    (frameCdPipeline a n hm).snd
      = ⟨DEPLOY_AMI_STAGE_NAME, ROLLBACK_ASGS_STAGE_NAME,
         if hm then some ROLLBACK_MIGRATIONS_STAGE_NAME else none⟩ := by
  cases hm <;> rfl

theorem frameCd_materials (a : Material) (n : String) (hm : Bool) :
    (frameCdPipeline a n hm).fst.materials = [] := by
  cases hm <;> rfl

/-- The scenario refuting C4 as stated: manual EDPs spanning two
environments and no explicit manual pipeline name, but with no continuous
EDPs and no explicit continuous pipeline name. -/
def c4Input : GenResult :=
  generate_service_deployment_pipelines popHead (emptyGroup "g")
    (fun _ => EnvConfig.mk "") (Material.git "u" none none) []
    [⟨"stage", "edx", "p"⟩, ⟨"prod", "edx", "p"⟩] none true none none none

/-- Counterexample to C4 as stated: with manual EDPs spanning the two
environments stage and prod and no explicit manual pipeline name, but no
continuous EDPs and no explicit continuous pipeline name, the call fails
with a `KeyError` (from `set.pop()` on the empty continuous-environment
set), not with a `ValueError`. -/
theorem c4_counterexample :
    c4Input.error = some PyErr.keyError
      ∧ ∀ msg, c4Input.error ≠ some (PyErr.valueError msg) := by
  have hk : c4Input.error = some PyErr.keyError := by rfl
  refine ⟨hk, ?_⟩
  intro msg h
  rw [hk] at h
  exact absurd (Option.some.inj h) (by simp)

/-- C4 amended: when the manual EDPs span more than one environment and no
manual pipeline name is given, the call fails with the descriptive
`ValueError` provided the continuous pipeline name is determinable (an
explicit `cd_pipeline_name` or at least one continuous EDP); when both are
absent it instead fails earlier with a `KeyError`. -/
theorem c4_ambiguous_manual_envs_amended (pop : List String → String)
    (g : PipelineGroup) (config : EDP → EnvConfig) (app : Material)
    (cont manual : List EDP) (br : Option String) (hm : Bool) (cdN appU : Option String)
    (hspan : 1 < (pySet (manual.map EDP.environment)).length) :
    ((cdN ≠ none ∨ cont ≠ []) →
      (generate_service_deployment_pipelines pop g config app cont manual br hm cdN none
        appU).error = some (PyErr.valueError
          "Only one environment is allowed in manual_deployment_edps if no manual_pipeline_name is specified"))
    ∧ (cdN = none → cont = [] →
      (generate_service_deployment_pipelines pop g config app cont manual br hm cdN none
        appU).error = some PyErr.keyError) := by
  have hmanne : manual ≠ [] := by
    intro h
    rw [h] at hspan
    simp [pySet, pySetAux] at hspan
  have pf1 : ¬((cont ++ manual).isEmpty = true) := by
    intro h
    rcases List.append_eq_nil.mp (List.isEmpty_iff.mp h) with ⟨h1, h2⟩
    exact hmanne h2
  constructor
  · intro hor
    rw [gen_error_characterization]
    unfold expectedErrorSpec
    have pf2 : ¬((cdN.isNone && cont.isEmpty) = true) := by
      rcases hor with h | h
      · rcases hcdn : cdN with _ | n
        · exact absurd hcdn h
        · simp
      · rcases hcont : cont with _ | ⟨x, xs⟩
        · exact absurd hcont h
        · simp
    have pf3 : ((!manual.isEmpty) && (none : Option String).isNone
        && decide (1 < (pySet (manual.map EDP.environment)).length)) = true := by
      rcases manual with _ | ⟨m0, mtl⟩
      · exact absurd rfl hmanne
      · exact decide_eq_true hspan
    rw [if_neg pf1, if_neg pf2, if_pos pf3]
  · intro h1 h2
    subst h1
    subst h2
    rw [gen_error_characterization]
    unfold expectedErrorSpec
    rw [if_neg pf1,
      if_pos (show ((none : Option String).isNone && (([] : List EDP)).isEmpty) = true
        from rfl)]

/-- Witness for the amended C4 at a concrete input. -/
theorem c4_ambiguous_manual_envs_amended_witness :
    ((some "cd" ≠ (none : Option String) ∨ ([⟨"stage", "edx", "p"⟩] : List EDP) ≠ []) →
      (generate_service_deployment_pipelines popHead (emptyGroup "g")
        (fun _ => EnvConfig.mk "") (Material.git "u" none none) [⟨"stage", "edx", "p"⟩]
        [⟨"prod", "edx", "p"⟩, ⟨"loadtest", "edx", "p"⟩] none true (some "cd") none
        none).error = some (PyErr.valueError
          "Only one environment is allowed in manual_deployment_edps if no manual_pipeline_name is specified"))
    ∧ (some "cd" = (none : Option String) → ([⟨"stage", "edx", "p"⟩] : List EDP) = [] →
      (generate_service_deployment_pipelines popHead (emptyGroup "g")
        (fun _ => EnvConfig.mk "") (Material.git "u" none none) [⟨"stage", "edx", "p"⟩]
        [⟨"prod", "edx", "p"⟩, ⟨"loadtest", "edx", "p"⟩] none true (some "cd") none
        none).error = some PyErr.keyError) :=
  c4_ambiguous_manual_envs_amended popHead (emptyGroup "g") (fun _ => EnvConfig.mk "")
    (Material.git "u" none none) [⟨"stage", "edx", "p"⟩]
    [⟨"prod", "edx", "p"⟩, ⟨"loadtest", "edx", "p"⟩] none true (some "cd") none
    (by decide)

/-- The scenario refuting C9 as stated: a nonempty EDP set with no
manual-environment ambiguity (a single continuous EDP). -/
def c9Input : GenResult :=
  generate_service_deployment_pipelines popHead (emptyGroup "g")
    (fun _ => EnvConfig.mk "") (Material.git "u" none none)
    [⟨"stage", "edx", "play1"⟩] [] none true none none none

/-- Counterexample to C9 as stated: an input with a nonempty EDP set, no
manual EDPs and hence no manual-environment ambiguity still raises an
error — the `IndexError` from `(ed_dict[ed])[1]` when an environment
groups fewer than two EDPs — so the builder does not raise in exactly the
two claimed situations. -/
theorem c9_counterexample : c9Input.error = some PyErr.indexError := by rfl

/-- C9 amended: the builder raises the empty-EDP `ValueError` and the
ambiguous-manual-environment `ValueError` exactly as claimed, but it also
raises a `KeyError` when the continuous EDPs are empty with no explicit
continuous pipeline name, and an `IndexError` when any environment groups
fewer than two EDPs; the error outcome never depends on the play set or
on the `pop` choice, so inputs with several distinct plays are not
validated (the play used is whatever `set.pop` returns). -/
theorem c9_error_cases_amended (pop : List String → String) (g : PipelineGroup)
    (config : EDP → EnvConfig) (app : Material) (cont manual : List EDP)
    (br : Option String) (hm : Bool) (cdN mN appU : Option String) :
    (generate_service_deployment_pipelines pop g config app cont manual br hm cdN mN
      appU).error = expectedErrorSpec cont manual cdN mN :=
  gen_error_characterization pop g config app cont manual br hm cdN mN appU

set_option maxHeartbeats 1000000 in
/-- C10: when the ambiguous-manual-environment `ValueError` is raised (the
manual EDPs span more than one environment, no manual pipeline name is
given, and the continuous pipeline name is determinable), the continuous
deployment pipeline has already been ensured as a replacement in the group
with its build-AMI, deploy and rollback stages created — the group is
mutated before the raise — whereas the empty-EDP failure leaves the group
untouched. -/
theorem c10_ambiguous_error_not_atomic (pop : List String → String) (g : PipelineGroup)
    (config : EDP → EnvConfig) (app : Material) (cont manual : List EDP)
    (br : Option String) (hm : Bool) (cdN appU : Option String)
    (hspan : 1 < (pySet (manual.map EDP.environment)).length)
    (hcd : cdN ≠ none ∨ cont ≠ []) :
    (let r := generate_service_deployment_pipelines pop g config app cont manual br hm
      cdN none appU
     r.error = some (PyErr.valueError
       "Only one environment is allowed in manual_deployment_edps if no manual_pipeline_name is specified")
     ∧ (∃ cdP : Pipeline,
         r.group = groupSetPipeline g cdP
         ∧ stagePairs cdP
           = [(BUILD_AMI_STAGE_NAME, false), (DEPLOY_AMI_STAGE_NAME, false),
              (ROLLBACK_ASGS_STAGE_NAME, true)]
             ++ (if hm then [(ROLLBACK_MIGRATIONS_STAGE_NAME, true)] else [])
         ∧ cdP.materials = [])
     ∧ r.cd_deploy_stages = some ⟨DEPLOY_AMI_STAGE_NAME, ROLLBACK_ASGS_STAGE_NAME,
         if hm then some ROLLBACK_MIGRATIONS_STAGE_NAME else none⟩
     ∧ (generate_service_deployment_pipelines pop g config app [] [] br hm cdN none
         appU).group = g) := by
  rcases hman : manual with _ | ⟨m0, mtl⟩
  · rw [hman] at hspan
    simp [pySet, pySetAux] at hspan
  · rcases hp : pySet ((cont ++ m0 :: mtl).map EDP.play) with _ | ⟨p0, ptl⟩
    · have h1 := List.map_eq_nil_iff.mp ((pySet_eq_nil_iff _).mp hp)
      rcases List.append_eq_nil.mp h1 with ⟨h2, h3⟩
      exact absurd h3 (by simp)
    · rcases hcres : resolveCdName pop cont cdN (pop (p0 :: ptl)) with e | cdName
      · exfalso
        unfold resolveCdName at hcres
        rcases cdN with _ | n
        · rcases hcc : pySet (cont.map EDP.environment) with _ | ⟨c0, ctl⟩
          · have hcnil : cont = [] :=
              List.map_eq_nil_iff.mp ((pySet_eq_nil_iff _).mp hcc)
            rcases hcd with h | h
            · exact h rfl
            · exact h hcnil
          · rw [hcc] at hcres
            exact absurd hcres (by simp)
        · exact absurd hcres (by simp)
      · have hmn : resolveManualName pop (m0 :: mtl) none (pop (p0 :: ptl))
            = Except.error (PyErr.valueError
              "Only one environment is allowed in manual_deployment_edps if no manual_pipeline_name is specified") := by
          unfold resolveManualName
          dsimp only
          rw [if_pos (by rw [← hman]; exact hspan)]
        simp only [generate_service_deployment_pipelines, hp, hcres, hmn]
        refine ⟨?_, ⟨(frameCdPipeline app cdName hm).fst, ?_,
          stagePairs_frameCd app cdName hm, frameCd_materials app cdName hm⟩, ?_, ?_⟩
        · first
            | rfl
            | trivial
        · rfl
        · rw [frameCd_snd]
        · rfl

/-- Witness for C10 at a concrete ambiguous-manual-environment input. -/
theorem c10_ambiguous_error_not_atomic_witness :
    (let r := generate_service_deployment_pipelines popHead (emptyGroup "g")
      (fun _ => EnvConfig.mk "") (Material.git "u" none none) [⟨"stage", "edx", "p"⟩]
      [⟨"prod", "edx", "p"⟩, ⟨"loadtest", "edx", "p"⟩] none true none none none
     r.error = some (PyErr.valueError
       "Only one environment is allowed in manual_deployment_edps if no manual_pipeline_name is specified")
     ∧ (∃ cdP : Pipeline,
         r.group = groupSetPipeline (emptyGroup "g") cdP
         ∧ stagePairs cdP
           = [(BUILD_AMI_STAGE_NAME, false), (DEPLOY_AMI_STAGE_NAME, false),
              (ROLLBACK_ASGS_STAGE_NAME, true)]
             ++ (if true then [(ROLLBACK_MIGRATIONS_STAGE_NAME, true)] else [])
         ∧ cdP.materials = [])
     ∧ r.cd_deploy_stages = some ⟨DEPLOY_AMI_STAGE_NAME, ROLLBACK_ASGS_STAGE_NAME,
         if true then some ROLLBACK_MIGRATIONS_STAGE_NAME else none⟩
     ∧ (generate_service_deployment_pipelines popHead (emptyGroup "g")
         (fun _ => EnvConfig.mk "") (Material.git "u" none none) [] [] none true none
         none none).group = emptyGroup "g") :=
  c10_ambiguous_error_not_atomic popHead (emptyGroup "g") (fun _ => EnvConfig.mk "")
    (Material.git "u" none none) [⟨"stage", "edx", "p"⟩]
    [⟨"prod", "edx", "p"⟩, ⟨"loadtest", "edx", "p"⟩] none true none none
    (by decide) (Or.inr (by simp))

/-! ### Idempotence of the ensure-replacement insertion (C6) -/

/-- The in-place replacement function used by `listSetPipeline`. -/
def replaceNamed (p : Pipeline) (q : Pipeline) : Pipeline :=
  if q.name == p.name then p else q

theorem listSetPipeline_eq_map (l : List Pipeline) (p : Pipeline)
    (h : l.any (fun q => q.name == p.name) = true) :
    listSetPipeline l p = l.map (replaceNamed p) := by
  unfold listSetPipeline
  rw [if_pos h]
  rfl

theorem listSetPipeline_eq_append (l : List Pipeline) (p : Pipeline)
    (h : l.any (fun q => q.name == p.name) = false) :
    listSetPipeline l p = l ++ [p] := by
  unfold listSetPipeline
  rw [if_neg (by rw [h]; decide)]

theorem any_name_map_replace (l : List Pipeline) (p : Pipeline) (r : String) :
    ((l.map (replaceNamed p)).any (fun q => q.name == r))
      = (l.any (fun q => q.name == r)) := by
  induction l with
  | nil => rfl
  | cons x xs ih =>
    rw [List.map_cons, List.any_cons, List.any_cons, ih]
    unfold replaceNamed
    by_cases hx : (x.name == p.name) = true
    · rw [if_pos hx, eq_of_beq hx]
    · rw [if_neg hx]

theorem any_name_listSet_self (l : List Pipeline) (p : Pipeline) :
    (listSetPipeline l p).any (fun q => q.name == p.name) = true := by
  by_cases h : l.any (fun q => q.name == p.name) = true
  · rw [listSetPipeline_eq_map l p h, any_name_map_replace, h]
  · rw [listSetPipeline_eq_append l p (by simpa using h), List.any_append]
    simp

theorem allNamed_listSet_self (l : List Pipeline) (p : Pipeline) :
    ∀ x ∈ listSetPipeline l p, x.name = p.name → x = p := by
  by_cases h : l.any (fun q => q.name == p.name) = true
  · rw [listSetPipeline_eq_map l p h]
    intro x hx hname
    rcases List.mem_map.mp hx with ⟨y, hy, rfl⟩
    unfold replaceNamed at hname ⊢
    by_cases hy2 : (y.name == p.name) = true
    · rw [if_pos hy2]
    · rw [if_neg hy2] at hname ⊢
      exact absurd (beq_iff_eq.mpr hname) hy2
  · rw [listSetPipeline_eq_append l p (by simpa using h)]
    intro x hx hname
    rcases List.mem_append.mp hx with hx2 | hx2
    · have h2 : l.any (fun q => q.name == p.name) = false := by simpa using h
      have h3 := List.any_eq_false.mp h2 x hx2
      exact absurd (beq_iff_eq.mpr hname) h3
    · simpa using hx2

theorem map_replace_of_allNamed (l : List Pipeline) (p : Pipeline)
    (h : ∀ x ∈ l, x.name = p.name → x = p) :
    l.map (replaceNamed p) = l := by
  have h2 : ∀ x ∈ l, replaceNamed p x = x := by
    intro x hx
    unfold replaceNamed
    by_cases hx2 : (x.name == p.name) = true
    · rw [if_pos hx2, h x hx (eq_of_beq hx2)]
    · rw [if_neg hx2]
  calc l.map (replaceNamed p) = l.map id := List.map_congr_left h2
    _ = l := List.map_id l

theorem listSet_of_allNamed (l : List Pipeline) (p : Pipeline)
    (hany : l.any (fun q => q.name == p.name) = true)
    (h : ∀ x ∈ l, x.name = p.name → x = p) :
    listSetPipeline l p = l := by
  rw [listSetPipeline_eq_map l p hany, map_replace_of_allNamed l p h]

theorem listSet_idem (l : List Pipeline) (p : Pipeline) :
    listSetPipeline (listSetPipeline l p) p = listSetPipeline l p :=
  listSet_of_allNamed _ _ (any_name_listSet_self l p) (allNamed_listSet_self l p)

theorem groupSet_idem (g : PipelineGroup) (p : Pipeline) :
    groupSetPipeline (groupSetPipeline g p) p = groupSetPipeline g p := by
  unfold groupSetPipeline
  dsimp only
  rw [listSet_idem]

theorem map_replace_of_no_match (l : List Pipeline) (p : Pipeline)
    (h : l.any (fun q => q.name == p.name) = false) :
    l.map (replaceNamed p) = l := by
  have h2 : ∀ x ∈ l, replaceNamed p x = x := by
    intro x hx
    unfold replaceNamed
    rw [if_neg (List.any_eq_false.mp h x hx)]
  calc l.map (replaceNamed p) = l.map id := List.map_congr_left h2
    _ = l := List.map_id l

theorem listSet_pair_idem (l : List Pipeline) (p q : Pipeline) :
    listSetPipeline (listSetPipeline (listSetPipeline (listSetPipeline l p) q) p) q
      = listSetPipeline (listSetPipeline l p) q := by
  have hallp := allNamed_listSet_self l p
  have hanyp := any_name_listSet_self l p
  by_cases hq : (listSetPipeline l p).any (fun x => x.name == q.name) = true
  · have hl2 : listSetPipeline (listSetPipeline l p) q
        = (listSetPipeline l p).map (replaceNamed q) :=
      listSetPipeline_eq_map _ q hq
    have hp1 : ((listSetPipeline l p).map (replaceNamed q)).any
        (fun x => x.name == p.name) = true := by
      rw [any_name_map_replace]
      exact hanyp
    have h3 : listSetPipeline ((listSetPipeline l p).map (replaceNamed q)) p
        = ((listSetPipeline l p).map (replaceNamed q)).map (replaceNamed p) :=
      listSetPipeline_eq_map _ p hp1
    have hq2 : (((listSetPipeline l p).map (replaceNamed q)).map (replaceNamed p)).any
        (fun x => x.name == q.name) = true := by
      rw [any_name_map_replace, any_name_map_replace]
      exact hq
    rw [hl2, h3, listSetPipeline_eq_map _ q hq2, List.map_map, List.map_map]
    apply List.map_congr_left
    intro x hx
    simp only [Function.comp_apply]
    by_cases hxq : (x.name == q.name) = true
    · by_cases hqp : (q.name == p.name) = true
      · have h5 : (p.name == q.name) = true := beq_iff_eq.mpr (eq_of_beq hqp).symm
        simp [replaceNamed, hxq, hqp, h5]
      · have hqp2 : (q.name == p.name) = false := by simpa using hqp
        simp [replaceNamed, hxq, hqp2]
    · have hxq2 : (x.name == q.name) = false := by simpa using hxq
      by_cases hxp : (x.name == p.name) = true
      · have hxep : x = p := hallp x hx (eq_of_beq hxp)
        have h6 : (p.name == q.name) = false := by
          rw [← hxep]
          exact hxq2
        simp [replaceNamed, hxq2, hxp, h6, hxep]
      · have hxp2 : (x.name == p.name) = false := by simpa using hxp
        simp [replaceNamed, hxq2, hxp2]
  · have hqf : (listSetPipeline l p).any (fun x => x.name == q.name) = false := by
      simpa using hq
    have hl2 : listSetPipeline (listSetPipeline l p) q = listSetPipeline l p ++ [q] :=
      listSetPipeline_eq_append _ q hqf
    have hpq : (q.name == p.name) = false := by
      rcases hb : (q.name == p.name) with _ | _
      · rfl
      · exfalso
        rcases List.any_eq_true.mp hanyp with ⟨x, hx, hxp⟩
        have hx2 : (x.name == q.name) = true := by
          rw [eq_of_beq hxp, ← eq_of_beq hb]
          exact beq_self_eq_true _
        have := List.any_eq_false.mp hqf x hx
        exact this hx2
    have hp2 : (listSetPipeline l p ++ [q]).any (fun x => x.name == p.name) = true := by
      rw [List.any_append, hanyp]
      rfl
    have h3 : listSetPipeline (listSetPipeline l p ++ [q]) p
        = listSetPipeline l p ++ [q] := by
      rw [listSetPipeline_eq_map _ p hp2, List.map_append,
        map_replace_of_allNamed _ p hallp]
      have : replaceNamed p q = q := by
        unfold replaceNamed
        rw [if_neg (by rw [hpq]; decide)]
      rw [List.map_singleton, this]
    have hq3 : (listSetPipeline l p ++ [q]).any (fun x => x.name == q.name) = true := by
      rw [List.any_append]
      simp
    rw [hl2, h3, listSetPipeline_eq_map _ q hq3, List.map_append,
      map_replace_of_no_match _ q hqf]
    have : replaceNamed q q = q := by
      unfold replaceNamed
      rw [if_pos (beq_self_eq_true _)]
    rw [List.map_singleton, this]

theorem groupSet_pair_idem (g : PipelineGroup) (p q : Pipeline) :
    groupSetPipeline (groupSetPipeline (groupSetPipeline (groupSetPipeline g p) q) p) q
      = groupSetPipeline (groupSetPipeline g p) q := by
  unfold groupSetPipeline
  dsimp only
  rw [listSet_pair_idem]

theorem tail_idem (g : PipelineGroup) (config : EDP → EnvConfig) (app : Material)
    (cont manual : List EDP) (br : Option String) (hm : Bool) (appU : Option String)
    (play cdName : String) (cdF : Pipeline) (ds : DeploymentStages)
    (mOpt : Option (Pipeline × DeploymentStages)) :
    generateServiceDeploymentPipelinesTail
      (generateServiceDeploymentPipelinesTail g config app cont manual br hm appU play
        cdName cdF ds mOpt).group
      config app cont manual br hm appU play cdName cdF ds mOpt
    = generateServiceDeploymentPipelinesTail g config app cont manual br hm appU play
        cdName cdF ds mOpt := by
  unfold generateServiceDeploymentPipelinesTail
  dsimp only
  rcases hb : buildLoop config app play br (CONFIGURATION br)
      (pipelineEnsureMaterial
        ((commonMaterialsOf br (cont ++ manual)).foldl pipelineEnsureMaterial cdF) app)
      (groupByEnv (cont ++ manual)) with ⟨cdB, eOpt⟩
  rcases eOpt with _ | e
  · rcases mOpt with _ | ⟨mp, mds⟩
    · simp only [Option.map_none', hb]
      rw [groupSet_idem]
    · simp only [Option.map_some', hb]
      rw [groupSet_pair_idem]
  · rcases mOpt with _ | ⟨mp, mds⟩
    · simp only [Option.map_none', hb]
      rw [groupSet_idem]
    · simp only [Option.map_some', hb]
      rw [groupSet_pair_idem]

theorem gspg_idem (c : Configurator) (play : String) :
    generate_service_pipeline_group (generate_service_pipeline_group c play).fst play
      = generate_service_pipeline_group c play := by
  unfold generate_service_pipeline_group
  dsimp only
  rw [List.filter_append, List.filter_filter]
  have h1 : ∀ a : PipelineGroup,
      (!(a.name == play) && !(a.name == play)) = !(a.name == play) := by
    intro a
    exact Bool.and_self _
  rw [List.filter_congr (fun a _ => h1 a)]
  have h2 : (List.filter (fun g => !(g.name == play))
      [ensure_permissions
        (ensure_permissions (ensure_permissions (emptyGroup play) Permission.ADMINS
          [play ++ "-admin"]) Permission.OPERATE [play ++ "-operator"])
        Permission.VIEW [play ++ "-operator"]]) = [] := by
    simp [ensure_permissions, emptyGroup]
  rw [h2, List.append_nil]

theorem gen_idem (pop : List String → String) (g : PipelineGroup)
    (config : EDP → EnvConfig) (app : Material) (cont manual : List EDP)
    (br : Option String) (hm : Bool) (cdN mN appU : Option String) :
    generate_service_deployment_pipelines pop
      (generate_service_deployment_pipelines pop g config app cont manual br hm cdN mN
        appU).group
      config app cont manual br hm cdN mN appU
    = generate_service_deployment_pipelines pop g config app cont manual br hm cdN mN
        appU := by
  rcases hp : pySet ((cont ++ manual).map EDP.play) with _ | ⟨p0, ptl⟩
  · simp only [generate_service_deployment_pipelines, hp]
  · rcases hcd : resolveCdName pop cont cdN (pop (p0 :: ptl)) with e | cdName
    · simp only [generate_service_deployment_pipelines, hp, hcd]
    · rcases hman : manual with _ | ⟨m0, mtl⟩ <;> subst hman
      · simp only [generate_service_deployment_pipelines, hp, hcd]
        exact tail_idem g config app cont [] br hm appU (pop (p0 :: ptl)) cdName
          (frameCdPipeline app cdName hm).fst (frameCdPipeline app cdName hm).snd none
      · rcases hmn : resolveManualName pop (m0 :: mtl) mN (pop (p0 :: ptl)) with e | mName
        · simp only [generate_service_deployment_pipelines, hp, hcd, hmn]
          rw [groupSet_idem]
        · simp only [generate_service_deployment_pipelines, hp, hcd, hmn]
          exact tail_idem g config app cont (m0 :: mtl) br hm appU (pop (p0 :: ptl))
            cdName (frameCdPipeline app cdName hm).fst (frameCdPipeline app cdName hm).snd
            (some (frameManualPipeline cdName mName hm))

/-- C6: both builders are idempotent.  Re-running
`generate_service_deployment_pipelines` on the pipeline group produced by a
first run (with the same arguments and the same `set.pop` choices) yields
exactly the first run's result — every insertion goes through the
ensure/replacement operations, so the second run replaces the same-named
pipelines in place instead of duplicating them — and re-running
`generate_service_pipeline_group` on the configurator produced by a first
run yields the first run's result, the same-named group being removed and
recreated identically. -/
theorem c6_builders_idempotent :
    (∀ (pop : List String → String) (g : PipelineGroup) (config : EDP → EnvConfig)
      (app : Material) (cont manual : List EDP) (br : Option String) (hm : Bool)
      (cdN mN appU : Option String),
      generate_service_deployment_pipelines pop
        (generate_service_deployment_pipelines pop g config app cont manual br hm cdN
          mN appU).group
        config app cont manual br hm cdN mN appU
      = generate_service_deployment_pipelines pop g config app cont manual br hm cdN mN
          appU)
    ∧ (∀ (c : Configurator) (play : String),
      generate_service_pipeline_group (generate_service_pipeline_group c play).fst play
        = generate_service_pipeline_group c play) :=
  ⟨gen_idem, gspg_idem⟩
